import Mathlib

/-!
Verification development for the adaptive template-based compressor in
`data_compression.py` (class `DataCompressor`).

The engine is embedded shallowly over `ℚ`: the Python code computes with IEEE
floats, and every float expression of the program is translated to the exact
rational it ideally denotes.  `int(...)` becomes truncation, Python `dict`s
become insertion-ordered association lists, and code paths that raise an
exception that is not caught become `Option.none`.

Two library functions called by the engine (`scipy.stats.ks_2samp` and the
square root inside `np.std` / `scipy.stats.pearsonr`) are modelled
mathematically; their doc comments state the model and its exactness domain.
Every concrete evaluation appearing in the theorems below stays inside that
exactness domain.
-/

namespace DataCompression

/-- Python `int(q)` for a rational `q`: truncation toward zero. -/
def pyInt (q : ℚ) : ℤ := if 0 ≤ q then ⌊q⌋ else ⌈q⌉

/-- Python `int(q)` where the argument is known nonnegative (all block-size
arithmetic in the source): truncation = floor, landed in `ℕ`. -/
def pyIntNat (q : ℚ) : ℕ := (⌊q⌋).toNat

/-- Sum of a list of rationals. -/
def qsum (xs : List ℚ) : ℚ := xs.foldl (· + ·) 0

/-- `np.mean`: arithmetic mean (`0` on the empty list; the source only takes
means of nonempty lists except where an explicit guard is noted). -/
def npMean (xs : List ℚ) : ℚ := if xs.length = 0 then 0 else qsum xs / xs.length

/-- Population variance, i.e. the square of `np.std` (numpy default `ddof=0`). -/
def npVarP (xs : List ℚ) : ℚ := npMean (xs.map (fun x => (x - npMean xs) ^ 2))

/-- `np.min` of a nonempty list (`0` on `[]`, never taken by the source). -/
def npMin (xs : List ℚ) : ℚ :=
  match xs with
  | [] => 0
  | h :: t => t.foldl min h

/-- `np.max` of a nonempty list (`0` on `[]`, never taken by the source). -/
def npMax (xs : List ℚ) : ℚ :=
  match xs with
  | [] => 0
  | h :: t => t.foldl max h

/-- Model of the float square root used inside `np.std` and
`scipy.stats.pearsonr`.  It is exact whenever the argument is the square of a
rational, which holds at every place the theorems below evaluate it (the
source's guards route all other uses through comparisons that the embedding
performs on squares instead). -/
def ratSqrt (q : ℚ) : ℚ := (Nat.sqrt q.num.toNat : ℚ) / (Nat.sqrt q.den : ℚ)

/-- Empirical distribution function of a sample at `x`. -/
def ecdf (sample : List ℚ) (x : ℚ) : ℚ :=
  ((sample.countP (fun v => decide (v ≤ x))) : ℚ) / (sample.length : ℚ)

/-- Two-sample Kolmogorov–Smirnov statistic `sup |F_a - F_b|`, evaluated over
the pooled points. -/
def ksStatOn (pooled a b : List ℚ) : ℚ :=
  npMax (pooled.map (fun x => |ecdf a x - ecdf b x|))

/-- Modelled from `scipy.stats.ks_2samp`: the exact (small-sample) two-sided
p-value, in its permutation form: the fraction of ways of relabelling the
pooled sample that reach a KS statistic at least as large as the observed one.
`none` models the `ValueError` scipy raises on an empty sample.  Every
evaluation in this file is on samples of length one, or on a pair of identical
samples, where this model provably returns `1`, as scipy does. -/
def ks_2samp_pvalue (a b : List ℚ) : Option ℚ :=
  if a.isEmpty ∨ b.isEmpty then none
  else
    let pooled := a ++ b
    let dObs := ksStatOn pooled a b
    let splits := pooled.sublistsLen a.length
    let hits := splits.countP (fun s => decide (dObs ≤ ksStatOn pooled s (pooled.diff s)))
    some ((hits : ℚ) / (splits.length : ℚ))

/-- `calculate_cer`, one-dimensional branch: mean of `|x - x̂| / |x|` over the
indices (after truncation to the common length) where the original value is
nonzero; `0` when there is no nonzero original value. -/
def calculate_cer_1d (d1 d2 : List ℚ) : ℚ :=
  let m := min d1.length d2.length
  let pairs := ((d1.take m).zip (d2.take m)).filter (fun p => decide (p.1 ≠ 0))
  if pairs.isEmpty then 0
  else npMean (pairs.map (fun p => |p.1 - p.2| / |p.1|))

/-- Covariance-style mean product of centred values (the numerator of the
Pearson coefficient, divided by the common length). -/
def qCov (xs ys : List ℚ) : ℚ :=
  npMean ((xs.zip ys).map (fun p => (p.1 - npMean xs) * (p.2 - npMean ys)))

/-- `calculate_correlation`, one-dimensional branch: `abs` of the Pearson
coefficient of the length-truncated inputs.  `scipy.stats.pearsonr` raises on
inputs of length `< 2`; the source catches that and returns `0.0`.  On a
constant input scipy instead returns NaN without raising, which the source
does not catch; `none` models that NaN. -/
def calculate_correlation_1d (d1 d2 : List ℚ) : Option ℚ :=
  let m := min d1.length d2.length
  let x := d1.take m
  let y := d2.take m
  if m < 2 then some 0
  else if npVarP x * npVarP y = 0 then none
  else some |qCov x y / ratSqrt (npVarP x * npVarP y)|

/-- z-normalisation `(x - mean) / std` with the source's guard
`np.std(data) if np.std(data) > 0 else 1`. -/
def zNorm (xs : List ℚ) : List ℚ :=
  let d := if npVarP xs > 0 then ratSqrt (npVarP xs) else 1
  xs.map (fun x => (x - npMean xs) / d)

/-- `np.diff`: successive differences. -/
def npDiff (xs : List ℚ) : List ℚ := (xs.zip xs.tail).map (fun p => p.2 - p.1)

/-- Shape similarity of two (already normalised, equal-length) sequences:
`max(0, 1 - min(1, mean |a - b| / 3))`. -/
def shapeSim (n1 n2 : List ℚ) : ℚ :=
  max 0 (1 - min 1 (npMean ((n1.zip n2).map (fun p => |p.1 - p.2|)) / 3))

/-- Trend similarity: fraction of positions where the discrete gradients of
the two normalised sequences share a sign (`0` when either gradient is empty). -/
def trendSim (n1 n2 : List ℚ) : ℚ :=
  let g1 := npDiff n1
  let g2 := npDiff n2
  if 0 < g1.length ∧ 0 < g2.length then
    let m := min g1.length g2.length
    ((((g1.take m).zip (g2.take m)).countP (fun p => decide (p.1 * p.2 > 0))) : ℚ) / (m : ℚ)
  else 0

/-- Configuration of `DataCompressor` (`self.config`); only the keys the
claims exercise are carried.  Weight fields `w_ks`..`w_trend` are the
`enhanced_similarity_weights` map. -/
structure Config where
  p_threshold : ℚ
  max_templates : ℕ
  min_values : ℕ
  min_block_size : ℕ
  max_block_size : ℕ
  adaptive_block_size : Bool
  min_blocks_before_adjustment : ℕ
  block_size : ℕ
  max_acceptable_cer : ℚ
  w_ks : ℚ
  w_corr : ℚ
  w_cer : ℚ
  w_shape : ℚ
  w_trend : ℚ
  template_expiration : ℕ
  template_usage_threshold : ℕ
  max_template_age : ℕ
  trend_detection_window : ℕ
  trend_threshold : ℚ
  multi_dimensional : Bool
  dimension_weights : List (String × ℚ)
  primary_dimension : String
  template_merge_threshold : ℚ
  enable_template_merging : Bool
  template_merge_interval : ℕ
  imp_w_usage : ℚ
  imp_w_recency : ℚ
  imp_w_age : ℚ
  max_templates_to_remove : ℚ
  deriving DecidableEq, Repr

/-- The default configuration from `DataCompressor.__init__`. -/
def defaultConfig : Config :=
  { p_threshold := 1/10
    max_templates := 200
    min_values := 10
    min_block_size := 10
    max_block_size := 120
    adaptive_block_size := true
    min_blocks_before_adjustment := 5
    block_size := 10
    max_acceptable_cer := 3/20
    w_ks := 3/20
    w_corr := 1/4
    w_cer := 3/20
    w_shape := 1/4
    w_trend := 1/5
    template_expiration := 300
    template_usage_threshold := 1
    max_template_age := 150
    trend_detection_window := 5
    trend_threshold := 7/10
    multi_dimensional := false
    dimension_weights := []
    primary_dimension := "power"
    template_merge_threshold := 9/10
    enable_template_merging := true
    template_merge_interval := 20
    imp_w_usage := 1/2
    imp_w_recency := 3/10
    imp_w_age := 1/5
    max_templates_to_remove := 1/20 }

/-- The five-component return value of `calculate_similarity_score` together
with the `details` entries the callers read. -/
structure SimDetails where
  score : ℚ
  ks_pvalue : ℚ
  correlation : ℚ
  cer : ℚ
  shape_similarity : ℚ
  trend_similarity : ℚ
  deriving DecidableEq, Repr

/-- `calculate_similarity_score`, one-dimensional branch.  `none` models a
computation with no numeric outcome: either `ks_2samp` raised (empty
truncated input, the exception propagates) or the correlation is NaN and
poisons the composite score. -/
def calculate_similarity_score_1d (cfg : Config) (d1 d2 : List ℚ) : Option SimDetails :=
  let m := min d1.length d2.length
  let x := d1.take m
  let y := d2.take m
  match ks_2samp_pvalue x y with
  | none => none
  | some ksp =>
    match calculate_correlation_1d x y with
    | none => none
    | some corr =>
      let cer := calculate_cer_1d x y
      let ncer := 1 - min 1 (cer / cfg.max_acceptable_cer)
      let n1 := zNorm x
      let n2 := zNorm y
      let shape := shapeSim n1 n2
      let trend := trendSim n1 n2
      let score := cfg.w_ks * min 1 (ksp / cfg.p_threshold) + cfg.w_corr * corr +
        cfg.w_cer * ncer + cfg.w_shape * shape + cfg.w_trend * trend
      some ⟨score, ksp, corr, cer, shape, trend⟩

/-- Multi-dimensional window: Python's per-dimension dict of value lists.
Association lists keep the dict's insertion order. -/
abbrev DimData := List (String × List ℚ)

/-- Dict lookup `d[k]` (`none` when `k not in d`). -/
def lookupDim (d : DimData) (k : String) : Option (List ℚ) :=
  (d.find? (fun p => p.1 == k)).map (fun p => p.2)

/-- `dimension_weights.get(dim, 1.0)`. -/
def dimWeight (cfg : Config) (dim : String) : ℚ :=
  ((cfg.dimension_weights.find? (fun p => p.1 == dim)).map (fun p => p.2)).getD 1

/-- `calculate_cer`, multi-dimensional branch: weighted mean of the
per-dimension CERs over the dimensions shared by both windows; a dimension
contributes (and its weight counts) only when the truncated original slice
has a nonzero entry. -/
def calculate_cer_md (cfg : Config) (d1 d2 : DimData) : ℚ :=
  let acc := d1.foldl
    (fun (acc : ℚ × ℚ) p =>
      match lookupDim d2 p.1 with
      | none => acc
      | some tv =>
        let w := dimWeight cfg p.1
        if w > 0 then
          let m := min p.2.length tv.length
          let pairs := ((p.2.take m).zip (tv.take m)).filter (fun q => decide (q.1 ≠ 0))
          if pairs.isEmpty then acc
          else (acc.1 + npMean (pairs.map (fun q => |q.1 - q.2| / |q.1|)) * w, acc.2 + w)
        else acc)
    (0, 0)
  if acc.2 > 0 then acc.1 / acc.2 else 0

/-- `calculate_correlation`, multi-dimensional branch.  A dimension shorter
than 2 makes `pearsonr` raise, which the per-dimension `except` swallows (the
dimension is skipped); a constant dimension of length ≥ 2 makes `pearsonr`
return NaN, which is *not* an exception and poisons the running total —
modelled by `none`. -/
def calculate_correlation_md (cfg : Config) (d1 d2 : DimData) : Option ℚ :=
  let acc := d1.foldl
    (fun (acc : Option (ℚ × ℚ)) p =>
      match acc with
      | none => none
      | some (tot, tw) =>
        match lookupDim d2 p.1 with
        | none => some (tot, tw)
        | some tv =>
          let w := dimWeight cfg p.1
          if w > 0 then
            let m := min p.2.length tv.length
            if m < 2 then some (tot, tw)
            else
              let x := p.2.take m
              let y := tv.take m
              if npVarP x * npVarP y = 0 then none
              else some (tot + |qCov x y / ratSqrt (npVarP x * npVarP y)| * w, tw + w)
          else some (tot, tw))
    (some (0, 0))
  acc.map (fun a => if a.2 > 0 then a.1 / a.2 else 0)

/-- Accumulator of the per-dimension loop of the multi-dimensional
`calculate_similarity_score`. -/
structure MdAcc where
  ksw : ℚ
  shapew : ℚ
  trendw : ℚ
  tw : ℚ
  dims : ℕ
  deriving DecidableEq, Repr

/-- `calculate_similarity_score`, multi-dimensional branch.  Returns the
details plus `dimensions_processed`.  `none` models a NaN correlation
poisoning the composite score; a dimension whose truncated slice is empty
makes `ks_2samp` raise inside the per-dimension `try` and is skipped. -/
def calculate_similarity_score_md (cfg : Config) (d1 d2 : DimData) :
    Option (SimDetails × ℕ) :=
  match calculate_correlation_md cfg d1 d2 with
  | none => none
  | some corr =>
    let cer := calculate_cer_md cfg d1 d2
    let ncer := 1 - min 1 (cer / cfg.max_acceptable_cer)
    let acc := d1.foldl
      (fun (a : MdAcc) p =>
        match lookupDim d2 p.1 with
        | none => a
        | some tv =>
          let w := dimWeight cfg p.1
          if w > 0 then
            let m := min p.2.length tv.length
            let x := p.2.take m
            let y := tv.take m
            match ks_2samp_pvalue x y with
            | none => a
            | some ksp =>
              let n1 := zNorm x
              let n2 := zNorm y
              ⟨a.ksw + ksp * w, a.shapew + shapeSim n1 n2 * w,
               a.trendw + trendSim n1 n2 * w, a.tw + w, a.dims + 1⟩
          else a)
      ⟨0, 0, 0, 0, 0⟩
    let ksp := if acc.tw > 0 then acc.ksw / acc.tw else acc.ksw
    let avgShape := if acc.tw > 0 then acc.shapew / acc.tw else 0
    let avgTrend := if acc.tw > 0 then acc.trendw / acc.tw else 0
    let score := cfg.w_ks * min 1 (ksp / cfg.p_threshold) + cfg.w_corr * corr +
      cfg.w_cer * ncer + cfg.w_shape * avgShape + cfg.w_trend * avgTrend
    some (⟨score, ksp, corr, cer, avgShape, avgTrend⟩, acc.dims)

/-- `is_similar`, one-dimensional branch: `(flag, similarity_score, cer)`.
Inputs shorter than `min_values` are rejected outright.  A `none` similarity
score — NaN or a propagating `ks_2samp` exception, neither reachable from the
theorems below — is collapsed to a rejection. -/
def is_similar_1d (cfg : Config) (d1 d2 : List ℚ) : Bool × ℚ × ℚ :=
  if d1.length < cfg.min_values ∨ d2.length < cfg.min_values then (false, 0, 0)
  else
    match calculate_similarity_score_1d cfg d1 d2 with
    | none => (false, 0, 0)
    | some d =>
      let th : ℚ := if d.correlation > 8/10 then 45/100 else 35/100
      let shapeTrendMatch := d.shape_similarity > 8/10 ∧ d.correlation > 9/10
      let flag := (d.score > th ∨ shapeTrendMatch) ∧ d.cer < cfg.max_acceptable_cer
      (flag, d.score, d.cer)

/-- `is_similar`, multi-dimensional branch: `(flag, similarity_score, cer)`.
Note that the source's `min_values` loop over the shared dimensions only
emits a debug log for undersized dimensions — it does not reject, so no size
test appears here.  The threshold is raised to `0.45` on correlation `> 0.8`
and scaled by `0.9` when more than two dimensions were processed. -/
def is_similar_md (cfg : Config) (d1 d2 : DimData) : Bool × ℚ × ℚ :=
  match calculate_similarity_score_md cfg d1 d2 with
  | none => (false, 0, calculate_cer_md cfg d1 d2)
  | some (d, dims) =>
    let th0 : ℚ := if d.correlation > 8/10 then 45/100 else 35/100
    let th := if dims > 2 then th0 * (9/10) else th0
    let shapeTrendMatch := d.shape_similarity > 8/10 ∧ d.correlation > 9/10
    let flag := (d.score > th ∨ shapeTrendMatch) ∧ d.cer < cfg.max_acceptable_cer
    (flag, d.score, d.cer)

/-- `defaultConfig` with `multi_dimensional` enabled. -/
def mdConfig : Config := { defaultConfig with multi_dimensional := true }

/-- A stored window: either a flat numeric sequence or a per-dimension dict. -/
inductive TData where
  | flat (xs : List ℚ)
  | md (dims : DimData)
  deriving DecidableEq, Repr

/-- One entry of `encoded_stream`.  The source stores a dict
`{'template_id', 'start_idx', 'length'}`; `template_id` is never `None`
because unmatched blocks immediately create a template. -/
structure EncodedBlock where
  template_id : ℕ
  start_idx : ℕ
  length : ℕ
  deriving DecidableEq, Repr

/-- The dict `adjust_block_size` appends to `block_size_history`.  The
`trend_type` slot holds the string `"none"` before a trend is ever measured
and an int afterwards; it is diagnostic only and modelled as `0` in that
case.  `trend_strength_sq` carries the square of the reported strength (see
`detect_trend`). -/
structure AdjRecord where
  block_number : ℕ
  old_size : ℕ
  new_size : ℕ
  recent_cer : ℚ
  recent_similarity : ℚ
  similarity_trend : ℚ
  has_trend : Bool
  trend_type : ℤ
  trend_strength_sq : ℚ
  hit_ratio : ℚ
  window_hit_ratio : ℚ
  hit_ratio_trend : ℚ
  adjustment_reason : String
  deriving DecidableEq, Repr

/-- `block_size_history` mixes plain ints (appended by the driver loop) with
the adjustment dicts appended by `adjust_block_size`. -/
inductive BSItem where
  | size (n : ℕ)
  | adj (r : AdjRecord)
  deriving DecidableEq, Repr

/-- An entry of `merged_templates` (the archive).  Entries written by the
three archiving sites carry slightly different keys: `importance` is present
for evicted templates, `merged_into` for merged ones. -/
structure MergedEntry where
  data : TData
  usage : ℕ
  last_used : ℕ
  creation_time : ℕ
  importance : Option ℚ
  merged_into : Option ℕ
  deriving DecidableEq, Repr

/-- The mutable state of a `DataCompressor` as set up by `reset()`.
`template_stats` is initialised by the source but never read or written
afterwards and is omitted. -/
structure CState where
  templates : List (ℕ × TData)
  template_counter : ℕ
  encoded_stream : List EncodedBlock
  current_block_size : ℕ
  blocks_processed : ℕ
  template_hit_count : ℕ
  templates_used : List ℕ
  recent_values : List ℚ
  block_size_history : List BSItem
  cer_values : List ℚ
  similarity_scores : List ℚ
  cost_values : List ℚ
  template_usage : List (ℕ × ℕ)
  template_last_used : List (ℕ × ℕ)
  template_creation_time : List (ℕ × ℕ)
  continuous_hit_ratio : List ℚ
  window_hit_count : ℕ
  window_blocks : ℕ
  window_size : ℕ
  previous_adjustments : List (ℕ × ℚ)
  min_adjustment_interval : ℕ
  last_adjustment_block : ℕ
  last_merge_check : ℕ
  merged_templates : List (ℕ × MergedEntry)
  template_importance : List (ℕ × ℚ)
  dimensions : List String
  deriving DecidableEq, Repr

/-- `reset()`: the state a compression run starts from. -/
def initState (cfg : Config) : CState :=
  { templates := []
    template_counter := 0
    encoded_stream := []
    current_block_size := cfg.block_size
    blocks_processed := 0
    template_hit_count := 0
    templates_used := []
    recent_values := []
    block_size_history := []
    cer_values := []
    similarity_scores := []
    cost_values := []
    template_usage := []
    template_last_used := []
    template_creation_time := []
    continuous_hit_ratio := []
    window_hit_count := 0
    window_blocks := 0
    window_size := 10
    previous_adjustments := []
    min_adjustment_interval := 3
    last_adjustment_block := 0
    last_merge_check := 0
    merged_templates := []
    template_importance := []
    dimensions := [] }

section AssocList

variable {α : Type}

/-- Dict lookup. -/
def alGet (m : List (ℕ × α)) (k : ℕ) : Option α :=
  (m.find? (fun p => p.1 == k)).map (fun p => p.2)

/-- Dict `.get(k, d)`. -/
def alGetD (m : List (ℕ × α)) (k : ℕ) (d : α) : α := (alGet m k).getD d

/-- `k in m`. -/
def alHasKey (m : List (ℕ × α)) (k : ℕ) : Bool := (alGet m k).isSome

/-- Dict assignment `m[k] = v`: updates in place when the key exists
(keeping its position, as Python dicts do), appends otherwise. -/
def alSet (m : List (ℕ × α)) (k : ℕ) (v : α) : List (ℕ × α) :=
  if alHasKey m k then m.map (fun p => if p.1 == k then (k, v) else p)
  else m ++ [(k, v)]

/-- `del m[k]` (no-op when absent; the source always guards with `in`). -/
def alErase (m : List (ℕ × α)) (k : ℕ) : List (ℕ × α) :=
  m.filter (fun p => p.1 != k)

/-- Keys in insertion order. -/
def alKeys (m : List (ℕ × α)) : List ℕ := m.map (fun p => p.1)

end AssocList

/-- Python's `min(m.items(), key=lambda x: x[1])[0]`: the first key attaining
the minimal value, `none` on an empty dict (where Python raises
`ValueError`). -/
def minByVal (m : List (ℕ × ℚ)) : Option ℕ :=
  match m with
  | [] => none
  | h :: t => some (t.foldl (fun b p => if p.2 < b.2 then p else b) h).1

/-- `max` of a list of naturals (`0` on `[]`; callers guard nonemptiness). -/
def listMaxNat (xs : List ℕ) : ℕ := xs.foldl max 0

/-- Stable insertion into a list sorted ascending by `f`: the new element
goes before the first element with an equal-or-larger key, matching the
stability of Python's `sort`. -/
def insertByKey (f : ℕ → ℚ) (x : ℕ) : List ℕ → List ℕ
  | [] => [x]
  | y :: ys => if f y < f x then y :: insertByKey f x ys else x :: y :: ys

/-- Python's stable `list.sort(key=f)` (ascending). -/
def stableSortByKey (f : ℕ → ℚ) : List ℕ → List ℕ
  | [] => []
  | x :: xs => insertByKey f x (stableSortByKey f xs)

/-- `update_template_metrics(template_id, used)`. -/
def update_template_metrics (tid : ℕ) (used : Bool) (s : CState) : CState :=
  let s :=
    if alHasKey s.template_usage tid then s
    else { s with template_usage := alSet s.template_usage tid 0
                  template_creation_time :=
                    alSet s.template_creation_time tid s.blocks_processed }
  let s :=
    if used then
      { s with template_usage :=
          alSet s.template_usage tid (alGetD s.template_usage tid 0 + 1) }
    else s
  { s with template_last_used := alSet s.template_last_used tid s.blocks_processed }

/-- `calculate_template_importance()`: recomputes `template_importance` for
every active template (stale entries for departed ids are kept — the source
never clears the dict).  Returns unchanged when `blocks_processed == 0`.
Rational division by zero yields `0` in the embedding; in Python a degenerate
store (every usage 0, or every template created / touched at the current
block) would raise `ZeroDivisionError` instead, and the theorems below carry
hypotheses keeping the store outside that region. -/
def calculate_template_importance (cfg : Config) (s : CState) : CState :=
  if s.blocks_processed = 0 then s
  else
    let current := s.blocks_processed
    let maxUsage : ℚ :=
      if s.template_usage.isEmpty then 1
      else (listMaxNat (s.template_usage.map (fun p => p.2)) : ℚ)
    let maxAge : ℚ :=
      if s.template_creation_time.isEmpty then 1
      else (listMaxNat (s.template_creation_time.map (fun p => current - p.2)) : ℚ)
    let maxUnused : ℚ :=
      if s.template_last_used.isEmpty then 1
      else (listMaxNat (s.template_last_used.map (fun p => current - p.2)) : ℚ)
    let imp := s.templates.foldl
      (fun m p =>
        let tid := p.1
        let usage := alGetD s.template_usage tid 0
        let age := current - alGetD s.template_creation_time tid 0
        let unused := current - alGetD s.template_last_used tid 0
        let usageScore := (usage : ℚ) / maxUsage
        let ageScore := (age : ℚ) / maxAge
        let recencyScore := 1 - (unused : ℚ) / maxUnused
        alSet m tid (cfg.imp_w_usage * usageScore + cfg.imp_w_recency * recencyScore +
          cfg.imp_w_age * ageScore))
      s.template_importance
    { s with template_importance := imp }

/-- The ordered pairs `(ids[i], ids[j])`, `i < j`, of a key list. -/
def orderedPairs : List ℕ → List (ℕ × ℕ)
  | [] => []
  | x :: xs => xs.map (fun y => (x, y)) ++ orderedPairs xs

/-- The template pairs for which `merge_similar_templates` reaches its
`calculate_similarity_score` call: a pair is skipped only when *both* usage
counts exceed 10 (the comment above the test says "skip if one of the two is
used too much", but the code tests `and`, so pairs such as usage 20 vs 3 are
examined). -/
def merge_examined_pairs (s : CState) : List (ℕ × ℕ) :=
  (orderedPairs (alKeys s.templates)).filter
    (fun p => !(10 < alGetD s.template_usage p.1 0 ∧ 10 < alGetD s.template_usage p.2 0))

/-- `merge_similar_templates()`.  For every examined pair the source computes
`similarity = calculate_similarity_score(t1, t2)` — a 5-tuple — and then
evaluates `similarity > merge_threshold`.  In Python 3 comparing a tuple with
a float raises `TypeError`, which the per-pair `except` swallows (a warning
is logged).  `merge_candidates` therefore always stays empty, the merging
loop never runs, and the call returns `0` leaving the state unchanged. -/
def merge_similar_templates (_cfg : Config) (s : CState) : ℕ × CState :=
  if s.templates.length < 5 then (0, s)
  else (0, s)

/-- `clean_expired_templates`'s archiving step: a victim whose recomputed
score exceeds `0.3` is copied into `merged_templates` before deletion. -/
def archiveVictim (st : CState) (tid : ℕ) : CState :=
  if (3/10 : ℚ) < alGetD st.template_importance tid 0 then
    let e : MergedEntry :=
      ⟨alGetD st.templates tid (TData.flat []),
       alGetD st.template_usage tid 0,
       alGetD st.template_last_used tid 0,
       alGetD st.template_creation_time tid 0,
       some (alGetD st.template_importance tid 0), none⟩
    { st with merged_templates := alSet st.merged_templates tid e }
  else st

/-- `clean_expired_templates`'s deletion step: a victim still present in the
store is removed from every per-template dict. -/
def removeVictim (st : CState) (tid : ℕ) : CState :=
  if alHasKey st.templates tid then
    { st with templates := alErase st.templates tid
              template_usage := alErase st.template_usage tid
              template_last_used := alErase st.template_last_used tid
              template_creation_time := alErase st.template_creation_time tid
              template_importance := alErase st.template_importance tid }
  else st

/-- `clean_expired_templates()`: optional merge pass, then — only when more
than 90% of `max_templates` is occupied — flags expired templates, removes
the lowest-importance 5% (at least 1) of them, archiving those whose score
exceeds `0.3`. -/
def clean_expired_templates (cfg : Config) (s : CState) : ℕ × CState :=
  let s :=
    if cfg.enable_template_merging ∧
        cfg.template_merge_interval ≤ s.blocks_processed - s.last_merge_check then
      let s' := (merge_similar_templates cfg s).2
      { s' with last_merge_check := s'.blocks_processed }
    else s
  if (s.templates.length : ℚ) ≤ (cfg.max_templates : ℚ) * (9/10) then (0, s)
  else
    let current := s.blocks_processed
    let s := calculate_template_importance cfg s
    let toRemove := s.templates.filterMap
      (fun p =>
        let tid := p.1
        let age := current - alGetD s.template_creation_time tid 0
        let unused := current - alGetD s.template_last_used tid 0
        let usage := alGetD s.template_usage tid 0
        if (cfg.template_expiration < unused ∧
              (cfg.max_template_age : ℚ) * (8/10) < (age : ℚ)) ∨
           (usage ≤ cfg.template_usage_threshold ∧
              (cfg.max_template_age : ℚ) * (9/10) < (age : ℚ)) ∨
           (cfg.max_template_age < age ∧ usage < 3)
        then some tid else none)
    let numToRemove :=
      min toRemove.length
        (max 1 (pyIntNat ((s.templates.length : ℚ) * cfg.max_templates_to_remove)))
    if toRemove.isEmpty then (0, s)
    else
      let sorted := stableSortByKey (fun tid => alGetD s.template_importance tid 0) toRemove
      let victims := sorted.take numToRemove
      let s := victims.foldl archiveVictim s
      let s := victims.foldl removeVictim s
      (victims.length, s)

/-- `create_template`'s archive-resurrection scan (the block guarded by
`self.merged_templates and len(self.templates) > max_templates * 0.8`).
For each archived entry the source computes
`similarity = self.calculate_similarity_score(data, template_info['data'])`
— a 5-tuple — and evaluates `similarity > 0.9`.  In Python 3 comparing a
tuple with a float raises `TypeError`; the `except` inside the loop swallows
it, so `best_match_id` always stays `None`: no archived template is ever
selected for resurrection, whatever the data. -/
def resurrection_result (_cfg : Config) (_data : TData) (_s : CState) : Option ℕ :=
  none

/-- `create_template(data)`: attempted resurrection (dead, see
`resurrection_result`), optional cleanup at 95% occupancy, insertion of a
copy of `data` under a fresh id, and eviction of the lowest-importance
template when the insertion pushes occupancy above `max_templates`.
`none` models the `ValueError` Python raises when the eviction's `min()`
runs over an empty importance dict (possible only when
`blocks_processed == 0`), and likewise the `KeyError` the unguarded read
`self.templates[least_important_id]` would raise if the minimal importance
key were stale (the other four deletions are guarded by `in`). -/
def create_template (cfg : Config) (data : TData) (s : CState) : Option (ℕ × CState) :=
  match resurrection_result cfg data s with
  | some bestId =>
    -- Unreachable resurrection branch, transcribed for fidelity.
    let tid := s.template_counter + 1
    let info := alGetD s.merged_templates bestId ⟨TData.flat [], 0, 0, 0, none, none⟩
    some (tid,
      { s with template_counter := tid
               templates := alSet s.templates tid info.data
               template_usage := alSet s.template_usage tid 1
               template_creation_time := alSet s.template_creation_time tid s.blocks_processed
               template_last_used := alSet s.template_last_used tid s.blocks_processed
               merged_templates := alErase s.merged_templates bestId })
  | none =>
    let s :=
      if (cfg.max_templates : ℚ) * (95/100) ≤ (s.templates.length : ℚ) then
        (clean_expired_templates cfg s).2
      else s
    let tid := s.template_counter + 1
    let s := { s with template_counter := tid, templates := alSet s.templates tid data }
    let s := update_template_metrics tid true s
    if cfg.max_templates < s.templates.length then
      let s := calculate_template_importance cfg s
      match minByVal s.template_importance with
      | none => none
      | some evicted =>
        match alGet s.templates evicted with
        | none => none
        | some evData =>
          let e : MergedEntry :=
            ⟨evData,
             alGetD s.template_usage evicted 0,
             alGetD s.template_last_used evicted 0,
             alGetD s.template_creation_time evicted 0,
             some (alGetD s.template_importance evicted 0), none⟩
          some (tid,
            { s with merged_templates := alSet s.merged_templates evicted e
                     templates := alErase s.templates evicted
                     template_usage := alErase s.template_usage evicted
                     template_last_used := alErase s.template_last_used evicted
                     template_creation_time := alErase s.template_creation_time evicted
                     template_importance := alErase s.template_importance evicted })
    else some (tid, s)

/-- The state `create_template` reaches right after the optional cleanup, the
insertion of the window under the fresh id `template_counter + 1`, and the
`update_template_metrics` touch — the reference point for the capacity
invariant. -/
def createInsertState (cfg : Config) (data : TData) (s : CState) : CState :=
  let s :=
    if (cfg.max_templates : ℚ) * (95/100) ≤ (s.templates.length : ℚ) then
      (clean_expired_templates cfg s).2
    else s
  let tid := s.template_counter + 1
  let s := { s with template_counter := tid, templates := alSet s.templates tid data }
  update_template_metrics tid true s

/-- The store well-formedness invariant `compress` maintains: template keys
are distinct, importance keys are distinct and point at active templates, the
store holds at most `N` templates, and every key is at most `c` (the counter
dominates all issued ids). -/
abbrev storeInv (N c : ℕ) (st : CState) : Prop :=
  (alKeys st.templates).Nodup ∧
  (alKeys st.template_importance).Nodup ∧
  (∀ q ∈ st.template_importance, alHasKey st.templates q.1 = true) ∧
  st.templates.length ≤ N ∧
  (∀ q ∈ st.templates, q.1 ≤ c)

/-- Last `n` elements of a list (Python `xs[-n:]`). -/
def lastN (n : ℕ) (xs : List ℚ) : List ℚ := xs.drop (xs.length - n)

/-- `detect_trend(data)` for a list argument (the only shape the callers
pass: the primary dimension's values, the flat window, or `[]`).  Appends the
mean of a nonempty argument to `recent_values`, truncates the rolling window,
and fits a least-squares line.  The reported strength is `|r|`; the
embedding carries `r²` instead and all strength comparisons downstream are
performed on squares, which is equivalent because the thresholds are
nonnegative.  `scipy.stats.linregress` reports `r = 0` for a degenerate
(zero-variance) fit. -/
def detect_trend (cfg : Config) (vals : List ℚ) (s : CState) :
    (Bool × ℤ × ℚ) × CState :=
  let s :=
    if 0 < vals.length then { s with recent_values := s.recent_values ++ [npMean vals] }
    else s
  let w := cfg.trend_detection_window
  let s :=
    if w < s.recent_values.length then
      { s with recent_values := s.recent_values.drop (s.recent_values.length - w) }
    else s
  if s.recent_values.length < 3 then ((false, 0, 0), s)
  else
    let y := s.recent_values
    let x := (List.range y.length).map (fun i => (i : ℚ))
    let cov := qCov x y
    let vx := npVarP x
    let vy := npVarP y
    let slope := cov / vx
    let rSq := if vx * vy = 0 then 0 else cov ^ 2 / (vx * vy)
    let ttype : ℤ := if slope > 0 then 1 else if slope < 0 then -1 else 0
    ((cfg.trend_threshold ^ 2 < rSq, ttype, rSq), s)

/-- 3×3 determinant (row-major entries). -/
def det3 (a b c d e f g h i : ℚ) : ℚ :=
  a * (e * i - f * h) - b * (d * i - f * g) + c * (d * h - e * g)

/-- Modelled from `np.polyfit(xs, ys, 2)`: the exact least-squares quadratic
coefficients `(a2, a1, a0)` obtained from the normal equations by Cramer's
rule; `none` when the system is singular (the caller guards with ≥ 3 distinct
sample points, which makes it nonsingular, and catches any exception). -/
def polyfit2 (xs ys : List ℚ) : Option (ℚ × ℚ × ℚ) :=
  let n := (xs.length : ℚ)
  let s1 := qsum xs
  let s2 := qsum (xs.map (fun v => v ^ 2))
  let s3 := qsum (xs.map (fun v => v ^ 3))
  let s4 := qsum (xs.map (fun v => v ^ 4))
  let t0 := qsum ys
  let t1 := qsum ((xs.zip ys).map (fun p => p.1 * p.2))
  let t2 := qsum ((xs.zip ys).map (fun p => p.1 ^ 2 * p.2))
  let det := det3 s4 s3 s2 s3 s2 s1 s2 s1 n
  if det = 0 then none
  else
    some (det3 t2 s3 s2 t1 s2 s1 t0 s1 n / det,
          det3 s4 t2 s2 s3 t1 s1 s2 t0 n / det,
          det3 s4 s3 t2 s3 s2 t1 s2 s1 t0 / det)

/-- The candidate size `nnew` and reason tag computed by the two adjustment
strategies of `adjust_block_size` (polynomial optimisation, lines 1209–1245,
falling back to the weighted heuristic, lines 1248–1322). -/
def polyCandidate (cfg : Config) (prevAdj : List (ℕ × ℚ)) (nbest : ℕ) : Option ℕ :=
  if 3 ≤ prevAdj.length then
    let bs := prevAdj.map (fun p => (p.1 : ℚ))
    let hr := prevAdj.map (fun p => p.2)
    if 3 ≤ bs.dedup.length then
      match polyfit2 bs hr with
      | none => none
      | some (a2, a1, _) =>
        if a2 < 0 then
          let opt := pyInt (-a1 / (2 * a2))
          if (cfg.min_block_size : ℤ) ≤ opt ∧ opt ≤ (cfg.max_block_size : ℤ) then
            let optN := opt.toNat
            let maxChange := pyIntNat ((nbest : ℚ) * (15/100))
            if maxChange < max (optN - nbest) (nbest - optN) then
              if nbest < optN then some (nbest + maxChange) else some (nbest - maxChange)
            else some optN
          else none
        else none
    else none
  else none

/-- The "increase" score of the weighted heuristic (hit-ratio weight `0.4`,
similarity weight `0.5`, trend weight `0.1`). -/
def increaseScore (hasTrend : Bool)
    (trendSq recentHitRatio recentSim hitRatioTrend : ℚ) : ℚ :=
  (if recentHitRatio > 3/5 then (1/2) * (4/10) else 0) +
  (if 0 ≤ hitRatioTrend then (1/2) * (4/10) else 0) +
  (if recentSim > 7/10 then 1/2 else 0) +
  (if hasTrend = false ∨ trendSq < (1/2) ^ 2 then 1/10 else 0)

/-- The "decrease" score of the weighted heuristic. -/
def decreaseScore (hasTrend : Bool)
    (trendSq recentHitRatio recentSim simTrend hitRatioTrend : ℚ) : ℚ :=
  (if recentHitRatio < 1/2 then (1/2) * (4/10) else 0) +
  (if hitRatioTrend < 0 then (1/2) * (4/10) else 0) +
  (if recentSim < 3/5 then 1/2 else 0) +
  (if simTrend < -(1/10) then (1/2) * (1/2) else 0) +
  (if hasTrend = true ∧ trendSq > (1/2) ^ 2 then 1/10 else 0)

def computeNNew (cfg : Config) (prevAdj : List (ℕ × ℚ)) (nbest : ℕ)
    (hasTrend : Bool) (trendSq recentHitRatio recentSim simTrend hitRatioTrend : ℚ) :
    ℕ × String :=
  match polyCandidate cfg prevAdj nbest with
  | some v => (v, "polynomial_optimization")
  | none =>
    let inc := increaseScore hasTrend trendSq recentHitRatio recentSim hitRatioTrend
    let dec := decreaseScore hasTrend trendSq recentHitRatio recentSim simTrend hitRatioTrend
    if inc > dec + 2/10 then
      let factor := min (35/100) ((inc - dec) * (7/10))
      (pyIntNat ((nbest : ℚ) * (1 + factor)), "faster_increase_by_weighted_score")
    else if dec > inc + 1/10 then
      let factor := min (3/10) ((dec - inc) * (6/10))
      (pyIntNat ((nbest : ℚ) * (1 - factor)), "fast_decrease_by_weighted_score")
    else if hitRatioTrend > 5/100 ∨ simTrend > 0 then
      (pyIntNat ((nbest : ℚ) * (125/100)), "stronger_increase_by_trend")
    else if hitRatioTrend < -(1/10) ∨ simTrend < -(5/100) then
      (pyIntNat ((nbest : ℚ) * (85/100)), "moderate_decrease_by_trend")
    else if recentHitRatio > 1/2 ∧ recentSim > 55/100 then
      (pyIntNat ((nbest : ℚ) * (11/10)), "moderate_increase_for_stable_good_metrics")
    else (nbest, "stable_performance")

/-- The forced 20% cut at the max bound with declining metrics
(lines 1344–1347), overriding the clamped value `v`. -/
def overrideMax (cfg : Config) (nbest : ℕ) (simTrend hitRatioTrend : ℚ)
    (v : ℕ × String) : ℕ × String :=
  if nbest = cfg.max_block_size ∧ (hitRatioTrend < 0 ∨ simTrend < 0) then
    (pyIntNat ((nbest : ℚ) * (8/10)),
     "significant_reduce_from_max_due_to_declining_metrics")
  else v

/-- The forced increase at the min bound (lines 1349–1362). -/
def overrideMin (cfg : Config) (nbest : ℕ)
    (recentHitRatio recentSim simTrend hitRatioTrend : ℚ)
    (v : ℕ × String) : ℕ × String :=
  if nbest = cfg.min_block_size then
    if recentHitRatio > 1/2 ∨ recentSim > 3/5 then
      (pyIntNat ((nbest : ℚ) * 2), "aggressive_increase_from_min_due_to_good_metrics")
    else if hitRatioTrend > 0 ∧ simTrend > 0 then
      (pyIntNat ((nbest : ℚ) * (3/2)), "stronger_increase_from_min_due_to_improving_trends")
    else (pyIntNat ((nbest : ℚ) * (13/10)), "default_increase_from_min_size")
  else v

/-- The early-phase growth bias (lines 1364–1374). -/
def overrideEarly (cfg : Config) (nbest blocksProcessed : ℕ)
    (recentHitRatio recentSim : ℚ) (v : ℕ × String) : ℕ × String :=
  if blocksProcessed ≤ 3 * cfg.min_blocks_before_adjustment then
    if recentSim > 55/100 then
      if v.1 < pyIntNat ((nbest : ℚ) * (3/2)) then
        (pyIntNat ((nbest : ℚ) * (3/2)), "early_stage_aggressive_increase_due_to_good_performance")
      else v
    else if recentHitRatio > 3/10 ∧ v.1 < pyIntNat ((nbest : ℚ) * (12/10)) then
      (pyIntNat ((nbest : ℚ) * (12/10)), "early_stage_default_increase")
    else v
  else v

/-- The clamp-then-override tail of `adjust_block_size` (lines 1339–1374):
clamp `nnew` into `[min_block_size, max_block_size]`, then apply the
max-bound forced cut, the min-bound forced increase and the early-phase
boosts — each of which writes an unclamped `int(nbest * factor)`. -/
def applyOverrides (cfg : Config) (nbest blocksProcessed : ℕ)
    (nnew : ℕ) (recentHitRatio recentSim simTrend hitRatioTrend : ℚ)
    (reason : String) : ℕ × String :=
  overrideEarly cfg nbest blocksProcessed recentHitRatio recentSim
    (overrideMin cfg nbest recentHitRatio recentSim simTrend hitRatioTrend
      (overrideMax cfg nbest simTrend hitRatioTrend
        (max cfg.min_block_size (min cfg.max_block_size nnew), reason)))

/-- The running hit-ratio bookkeeping at the top of `adjust_block_size`
(lines 1127–1147): returns `current_hit_ratio` and the updated window
counters.  The test `encoded_stream[-1].get('template_id') is not None`
holds whenever the stream is nonempty: `template_id` is never `None`. -/
def adjustBookkeeping (_cfg : Config) (s : CState) : ℚ × CState :=
  let currentHitRatio : ℚ :=
    if 0 < s.blocks_processed then (s.template_hit_count : ℚ) / (s.blocks_processed : ℚ)
    else 0
  let s' :=
    if 0 < s.blocks_processed then
      let s := { s with window_blocks := s.window_blocks + 1 }
      let s :=
        if 0 < s.encoded_stream.length then
          { s with window_hit_count := s.window_hit_count + 1 }
        else s
      let s :=
        if s.window_size ≤ s.window_blocks then
          let whr : ℚ := (s.window_hit_count : ℚ) / (s.window_blocks : ℚ)
          { s with continuous_hit_ratio := s.continuous_hit_ratio ++ [whr],
                   window_hit_count := 0, window_blocks := 0 }
        else s
      if s.continuous_hit_ratio.isEmpty then
        { s with continuous_hit_ratio := [currentHitRatio] }
      else s
    else s
  (currentHitRatio, s')

/-- The strategy/rejection/override/record part of `adjust_block_size`
(lines 1206–1410), taking the aggregated recent metrics as arguments:
the two strategies, the rejection window with its special conditions, the
overrides, and the history / `previous_adjustments` writes. -/
def adjustWrite (cfg : Config) (currentHitRatio : ℚ) (trend : Bool × ℤ × ℚ)
    (recentCer recentSim simTrend recentHitRatio hitRatioTrend : ℚ)
    (s : CState) : ℕ × CState :=
      let hasTrend := trend.1
      let trendTypeZ := trend.2.1
      let trendSq := trend.2.2
      let r := s.blocks_processed
      let rmin := cfg.min_blocks_before_adjustment
      let k := s.block_size_history.length
      let nbest := s.current_block_size
      let nr :=
        if rmin ≤ r ∧ k < 20 then
          computeNNew cfg s.previous_adjustments nbest hasTrend trendSq
            recentHitRatio recentSim simTrend hitRatioTrend
        else (nbest, "stable_performance")
      let nnew := nr.1
      let reason0 := nr.2
      let wn := max 1 (pyIntNat ((nbest : ℚ) * (3/100)))
      let specialCondition :=
        recentHitRatio < 35/100 ∨ recentSim < 45/100 ∨
        (recentHitRatio > 8/10 ∧ recentSim > 7/10) ∨ s.blocks_processed < 10
      let changeBig := wn < max (nnew - nbest) (nbest - nnew)
      let nb :=
        if changeBig ∨ specialCondition then
          applyOverrides cfg nbest s.blocks_processed nnew
            recentHitRatio recentSim simTrend hitRatioTrend reason0
        else (nbest, reason0)
      let newBlockSize := nb.1
      let reason := nb.2
      let rec0 : AdjRecord :=
        { block_number := s.blocks_processed
          old_size := s.current_block_size
          new_size := newBlockSize
          recent_cer := recentCer
          recent_similarity := recentSim
          similarity_trend := simTrend
          has_trend := hasTrend
          trend_type := trendTypeZ
          trend_strength_sq := trendSq
          hit_ratio := currentHitRatio
          window_hit_ratio := recentHitRatio
          hit_ratio_trend := hitRatioTrend
          adjustment_reason := reason }
      let s1 := { s with block_size_history := s.block_size_history ++ [BSItem.adj rec0] }
      let s2 := { s1 with current_block_size := newBlockSize
                          last_adjustment_block := s1.blocks_processed }
      let s3 := { s2 with previous_adjustments :=
                    s2.previous_adjustments ++ [(newBlockSize, currentHitRatio)] }
      let s4 :=
        if ¬changeBig ∧ ¬specialCondition ∧ r % 20 = 0 then
          { s3 with previous_adjustments :=
              s3.previous_adjustments ++ [(nbest, currentHitRatio)] }
        else s3
      -- the returned `self.current_block_size` is the `newBlockSize` just
      -- assigned into the state
      (newBlockSize, s4)

/-- The decision tail of `adjust_block_size`: aggregates the recent-metric
values (lines 1171–1204) and hands them to `adjustWrite`. -/
def adjustDecide (cfg : Config) (currentHitRatio : ℚ) (trend : Bool × ℤ × ℚ)
    (s : CState) : ℕ × CState :=
  let recentCer := if 5 ≤ s.cer_values.length then npMean (lastN 5 s.cer_values) else 0
  let recentSim :=
    if 5 ≤ s.similarity_scores.length then npMean (lastN 5 s.similarity_scores) else 1
  let simTrend : ℚ :=
    if 5 ≤ s.similarity_scores.length then
      match lastN 5 s.similarity_scores with
      | [] => (0 : ℚ)
      | h :: t => (h :: t).getLast (by simp) - h
    else 0
  let recentHitRatio := (s.continuous_hit_ratio.getLast?).getD currentHitRatio
  let hitRatioTrend : ℚ :=
    if 3 ≤ s.continuous_hit_ratio.length then
      match lastN 3 s.continuous_hit_ratio with
      | [] => (0 : ℚ)
      | h :: t => (h :: t).getLast (by simp) - h
    else 0
  adjustWrite cfg currentHitRatio trend recentCer recentSim simTrend
    recentHitRatio hitRatioTrend s

/-- The effective minimum adjustment interval (lines 1153–1159): halved
(floor 2) when the two most recent similarity scores show a low value or a
sharp drop. -/
def adjustInterval (s : CState) : ℕ :=
  let sharpDrop : Bool :=
    match lastN 2 s.similarity_scores with
    | [a, b] => decide (b < 2/5) || decide (b - a < -(1/5))
    | _ => false
  if 2 ≤ s.similarity_scores.length ∧ sharpDrop = true then
    max 2 (pyIntNat ((s.min_adjustment_interval : ℚ) * (1/2)))
  else s.min_adjustment_interval

/-- `adjust_block_size()`: hit-ratio bookkeeping, gating, trend
re-detection over the stored `recent_values`, then the decision tail
(`adjustDecide`). -/
def adjust_block_size (cfg : Config) (s : CState) : ℕ × CState :=
  let bk := adjustBookkeeping cfg s
  let currentHitRatio := bk.1
  let s := bk.2
  if ¬cfg.adaptive_block_size ∨ s.blocks_processed < cfg.min_blocks_before_adjustment then
    (s.current_block_size, s)
  else
    if s.blocks_processed - s.last_adjustment_block < adjustInterval s then
      (s.current_block_size, s)
    else
      let tr :=
        if 3 ≤ s.recent_values.length then detect_trend cfg [] s
        else ((false, 0, 0), s)
      adjustDecide cfg currentHitRatio tr.1 tr.2

/-- First element attaining the maximal similarity score among the potential
matches `(template_id, cer, score)` — the head of Python's stable descending
sort by score. -/
def maxBySimScore (l : List (ℕ × ℚ × ℚ)) : Option (ℕ × ℚ × ℚ) :=
  match l with
  | [] => none
  | h :: t => some (t.foldl (fun b p => if p.2.2 > b.2.2 then p else b) h)

/-- One iteration of `find_matching_template`'s scan over the store: skip
flat templates and templates lacking the primary dimension, apply the
statistical prefilter, then evaluate `is_similar` and collect candidates
scoring above `0.3` (after the trend boost). -/
def matchScanStep (cfg : Config) (data : DimData)
    (dataMean dataVar dataRange boost : ℚ) (hasTrend : Bool)
    (acc : List (ℕ × ℚ × ℚ) × CState) (p : ℕ × TData) :
    List (ℕ × ℚ × ℚ) × CState :=
  match p.2 with
  | TData.flat _ => acc
  | TData.md tdims =>
    match lookupDim tdims cfg.primary_dimension with
    | none => acc
    | some tv =>
      let tMean := npMean tv
      let tRange := npMax tv - npMin tv
      if (dataMean - tMean) ^ 2 > (1/4) * dataVar ∧
          |dataRange - tRange| > (1/2) * dataRange then acc
      else
        let s1 := update_template_metrics p.1 false acc.2
        let r := is_similar_md cfg data tdims
        let s2 :=
          if r.1 then
            { s1 with similarity_scores := s1.similarity_scores ++ [r.2.1] }
          else s1
        let adjusted := if hasTrend then r.2.1 - boost else r.2.1
        if r.1 ∧ adjusted > 3/10 then (acc.1 ++ [(p.1, r.2.2, r.2.1)], s2)
        else (acc.1, s2)

/-- `find_matching_template(data)`, multi-dimensional branch (the driver only
calls it with dict windows).  Returns `some (template_id, similarity)` for a
match, `none` for `(None, 0, False)`.  The statistical prefilter compares
`|data_mean - template_mean| > 0.5 * data_std` on squares (equivalent: both
sides are nonnegative).  State threading carries the `update_template_metrics`
touches, the `similarity_scores` appends performed inside `is_similar`, and
the winner's usage/CER bookkeeping. -/
def find_matching_template_md (cfg : Config) (data : DimData) (s : CState) :
    Option (ℕ × ℚ) × CState :=
  match lookupDim data cfg.primary_dimension with
  | none => (none, s)
  | some pv =>
    if pv.length < cfg.min_values then (none, s)
    else
      let tr := detect_trend cfg pv s
      let hasTrend := tr.1.1
      let trendSq := tr.1.2.2
      let s := tr.2
      let dataMean := npMean pv
      let dataVar := npVarP pv
      let dataRange := npMax pv - npMin pv
      let boost : ℚ := if hasTrend ∧ ((85/100 : ℚ)) ^ 2 < trendSq then 15/100 else 0
      let res := s.templates.foldl
        (matchScanStep cfg data dataMean dataVar dataRange boost hasTrend) ([], s)
      let s := res.2
      match maxBySimScore res.1 with
      | none => (none, s)
      | some best =>
        if hasTrend ∧ ((9/10 : ℚ)) ^ 2 < trendSq ∧ best.2.2 < 7/10 then (none, s)
        else
          let s := update_template_metrics best.1 true s
          let s := { s with cer_values := s.cer_values ++ [best.2.1] }
          let s :=
            if best.2.2 > 0 then
              { s with similarity_scores := s.similarity_scores ++ [best.2.2] }
            else s
          (some (best.1, best.2.2), s)

/-- One input sample: a dict from dimension name to value. -/
abbrev Sample := List (String × ℚ)

/-- The slicing of a run of samples into the per-dimension dict `block_data`
(`compress`, lines 1468–1473): dimensions appear in first-encounter order and
a sample lacking a dimension simply contributes nothing to it. -/
def buildBlockData (samples : List Sample) : DimData :=
  samples.foldl
    (fun bd sample =>
      sample.foldl
        (fun (bd2 : DimData) p =>
          if (bd2.find? (fun q => q.1 == p.1)).isSome then
            bd2.map (fun q => if q.1 == p.1 then (q.1, q.2 ++ [p.2]) else q)
          else bd2 ++ [(p.1, [p.2])])
        bd)
    []

/-- The per-block matching step of the driver (lines 1476–1484): find a
template, otherwise create one; on a hit bump the global and window hit
counters.  `none` propagates an exception from `create_template`. -/
def processBlock (cfg : Config) (block : DimData) (s : CState) : Option (ℕ × CState) :=
  let r := find_matching_template_md cfg block s
  match r.1 with
  | none => create_template cfg (TData.md block) r.2
  | some (tid, _) =>
    some (tid, { r.2 with template_hit_count := r.2.template_hit_count + 1,
                          window_hit_count := r.2.window_hit_count + 1 })

/-- The per-block postlude of the driver (lines 1498–1513): block counters,
the windowed hit ratio, and the adaptive block-size adjustment.  The local
`hit_ratio_by_block` diagnostic list is not part of the state and is
omitted. -/
def postBlock (cfg : Config) (s : CState) : CState :=
  let s := { s with blocks_processed := s.blocks_processed + 1,
                    window_blocks := s.window_blocks + 1 }
  let s :=
    if s.window_size ≤ s.window_blocks then
      let whr : ℚ := (s.window_hit_count : ℚ) / (s.window_blocks : ℚ)
      { s with continuous_hit_ratio := s.continuous_hit_ratio ++ [whr],
               window_hit_count := 0, window_blocks := 0 }
    else s
  if cfg.adaptive_block_size ∧ cfg.min_blocks_before_adjustment ≤ s.blocks_processed then
    (adjust_block_size cfg s).2
  else s

/-- The `while i < n` loop of the multi-dimensional `compress` branch,
parameterised over the per-block processing (`pre` = matching/creation,
`post` = counters and adjustment) so that the structural slicing/encoding
skeleton is isolated.  `none` models a run with no result: either an
exception propagated from a block or a zero block size that would loop
forever (fuel is `n`, an upper bound on the number of blocks since each
block consumes at least one sample). -/
def driverLoop (cfg : Config)
    (pre : DimData → CState → Option (ℕ × CState)) (post : CState → CState) :
    ℕ → List Sample → ℕ → ℕ → CState → Option CState
  | 0, rem, _, _, s => if rem.isEmpty then some s else none
  | fuel + 1, rem, i, n, s =>
    if rem.isEmpty then some s
    else
      let histSize := if 0 < s.current_block_size then s.current_block_size
                      else cfg.min_block_size
      let s := { s with block_size_history :=
                  s.block_size_history ++ [BSItem.size histSize] }
      let bs := min s.current_block_size (n - i)
      if bs = 0 then none
      else
        let block := buildBlockData (rem.take bs)
        match pre block s with
        | none => none
        | some (tid, s1) =>
          let s2 :=
            { s1 with
              templates_used :=
                if s1.templates_used.contains tid then s1.templates_used
                else s1.templates_used ++ [tid],
              encoded_stream := s1.encoded_stream ++ [⟨tid, i, bs⟩] }
          driverLoop cfg pre post fuel (rem.drop bs) (i + bs) n (post s2)

/-- The argument of `compress`: a flat numeric sequence or a list of
per-dimension dicts. -/
inductive CompressInput where
  | flat (xs : List ℚ)
  | md (samples : List Sample)
  deriving DecidableEq, Repr

/-- The fields of the result dict that the claims exercise; the remaining
entries (`templates_used`, `dimension_stats`, size estimates, …) are
diagnostic only and omitted. -/
structure CompressionResult where
  templates : List (ℕ × TData)
  encoded_stream : List EncodedBlock
  compression_ratio : ℚ
  hit_ratio : ℚ
  avg_cer : ℚ
  total_values : ℕ
  deriving DecidableEq, Repr

/-- The finalisation of the multi-dimensional `compress` branch (lines
1518–1624): size estimates over the templates actually referenced, the
compression ratio and the hit ratio.  Summation over the *set* of used ids is
order-independent, so the deduplicated insertion order used here gives the
same value as Python's set iteration. -/
def assembleResult (_cfg : Config) (n : ℕ) (dims : List String) (s : CState) :
    CompressionResult :=
  let originalSize : ℚ := (n : ℚ) * 8 * (dims.length : ℚ)
  let usedIds := (s.encoded_stream.map (fun b => b.template_id)).dedup
  let usedTemplateSize : ℚ := qsum (usedIds.map (fun tid =>
    match alGet s.templates tid with
    | some (TData.md tdims) => qsum (tdims.map (fun d => (d.2.length : ℚ) * 8)) + 4
    | some (TData.flat xs) => (xs.length : ℚ) * 8 + 4
    | none => 0))
  let encodedStreamSize : ℚ := (s.encoded_stream.length : ℚ) * 12
  let compressedSize := usedTemplateSize + encodedStreamSize
  let ratio := originalSize / max 1 compressedSize
  let hitRatio : ℚ := (s.template_hit_count : ℚ) / ((max 1 s.blocks_processed : ℕ) : ℚ)
  let avgCer := if s.cer_values.isEmpty then 0 else npMean s.cer_values
  ⟨s.templates, s.encoded_stream, ratio, hitRatio, avgCer, n⟩

/-- `compress(data)` returning the final compressor state alongside the
result.  The multi-dimensional branch runs only for a non-empty list of
dicts with `multi_dimensional` enabled; every other input reaches the
single-dimension branch, whose body the source elides (`pass`), so the call
returns `None`. -/
def runCompress (cfg : Config) (input : CompressInput) :
    Option (CState × CompressionResult) :=
  let s := initState cfg
  match input with
  | .flat _ => none
  | .md samples =>
    if cfg.multi_dimensional ∧ 0 < samples.length then
      let dims := (samples.headD []).map (fun p => p.1)
      let s := { s with dimensions := dims }
      let n := samples.length
      if n < cfg.min_block_size then some (s, ⟨[], [], 1, 0, 0, n⟩)
      else
        match driverLoop cfg (processBlock cfg) (postBlock cfg) n samples 0 n s with
        | none => none
        | some s' => some (s', assembleResult cfg n dims s')
    else none

/-- `compress(data)`: just the returned result structure. -/
def compress (cfg : Config) (input : CompressInput) : Option CompressionResult :=
  (runCompress cfg input).map (fun p => p.2)

/-- `blocksSpanB i stream n`: the stream covers exactly `[i, n)` by
contiguous, ascending, non-overlapping, gapless blocks of positive length. -/
def blocksSpanB : ℕ → List EncodedBlock → ℕ → Bool
  | i, [], n => i == n
  | i, b :: rest, n =>
    b.start_idx == i && decide (1 ≤ b.length) && blocksSpanB (i + b.length) rest n

/-- The partition invariant: the `EncodedBlock` ranges of a stream partition
`[0, n)` exactly. -/
def StreamPartitions (stream : List EncodedBlock) (n : ℕ) : Prop :=
  blocksSpanB 0 stream n = true

/-! Concrete fixtures used by the witnesses and counterexamples below. -/

/-- A small multi-dimensional configuration: capacity 1, block size 1, no
adaptation. -/
def smallCfg : Config :=
  { mdConfig with max_templates := 1, min_block_size := 1, block_size := 1,
                  adaptive_block_size := false }

/-- Two samples of a dimension `x` distinct from the primary dimension. -/
def smallInput : CompressInput := .md [[("x", 1)], [("x", 2)]]

/-- A configuration whose block-size bounds coincide: `min = max = 10`. -/
def boundsCfg : Config :=
  { mdConfig with min_block_size := 10, max_block_size := 10, block_size := 10 }

/-- Fifty constant samples of a dimension `x` distinct from the primary
dimension. -/
def boundsInput : CompressInput := .md (List.replicate 50 [("x", 1)])

/-- Capacity-1 configuration for the resurrection scenario. -/
def resCfg : Config := { defaultConfig with max_templates := 1 }

/-- A store holding one active template (occupancy 100% > 80%) and one
archived template whose data is identical to the incoming window `[0, 2]`. -/
def resState : CState :=
  { initState resCfg with
      templates := [(1, TData.flat [3, 4])]
      template_counter := 1
      blocks_processed := 1
      template_usage := [(1, 1)]
      template_creation_time := [(1, 0)]
      template_last_used := [(1, 0)]
      merged_templates := [(7, ⟨TData.flat [0, 2], 2, 0, 0, some 1, none⟩)] }

/-- A store of five templates: ids 2 and 3 hold identical data `[0, 2]` with
usage counts 3 and 1; id 1 holds `[0, 2]` as well with usage 20. -/
def mergeState : CState :=
  { initState defaultConfig with
      templates := [(1, TData.flat [0, 2]), (2, TData.flat [0, 2]),
                    (3, TData.flat [0, 2]), (4, TData.flat [300, 400]),
                    (5, TData.flat [500, 600])]
      template_counter := 5
      blocks_processed := 30
      template_usage := [(1, 20), (2, 3), (3, 1), (4, 1), (5, 1)]
      template_creation_time := [(1, 0), (2, 0), (3, 0), (4, 0), (5, 0)]
      template_last_used := [(1, 29), (2, 29), (3, 29), (4, 29), (5, 29)] }

/-- Capacity-1 configuration for the capacity-invariant witness. -/
def capCfg : Config := { defaultConfig with max_templates := 1 }

/-- A full store (1 of 1) one block into a run. -/
def capState : CState :=
  { initState capCfg with
      templates := [(1, TData.flat [3, 4])]
      template_counter := 1
      blocks_processed := 1
      template_usage := [(1, 1)]
      template_creation_time := [(1, 0)]
      template_last_used := [(1, 0)] }

/-- The result of inserting a second window into the full one-slot store
(used as the concrete capacity-invariant check). -/
def capResult : ℕ × CState :=
  (create_template capCfg (TData.flat [5, 6]) capState).getD (0, initState capCfg)

/-- A mid-run controller state past the early phase with the size at neither
bound. -/
def adjState : CState :=
  { initState mdConfig with current_block_size := 50, blocks_processed := 16 }

/-! ## Claim theorems -/

/-- C1 (counterexample): the claim says the empty input (`n = 0`) yields a
well-formed zero-activity `CompressionResult`.  It does not: for an empty
list the multi-dimensional guard `len(data) > 0` fails, control falls into
the elided single-dimension branch of `compress`, and the call returns
`None` — no result structure at all. -/
theorem C1_empty_input_returns_none : compress mdConfig (.md []) = none := rfl

/-- C1 (amended): a *non-empty* multi-dimensional input shorter than
`min_block_size` yields the zero-activity result — `templates = {}`,
`encoded_stream = []`, `compression_ratio = 1.0`, `hit_ratio = 0` — while the
empty input yields `None` (see the counterexample). -/
theorem C1_short_input_zero_activity (cfg : Config) (samples : List Sample)
    (hmulti : cfg.multi_dimensional = true) (hne : samples ≠ [])
    (hshort : samples.length < cfg.min_block_size) :
    compress cfg (.md samples) = some ⟨[], [], 1, 0, 0, samples.length⟩ := by
  have hp : 0 < samples.length := List.length_pos.mpr hne
  unfold compress runCompress
  simp [hmulti, hp, hshort]

/-- Witness for C1: one sample of the primary dimension, under the default
`min_block_size = 10`. -/
theorem C1_short_input_witness :
    compress mdConfig (.md [[("power", 5)]]) = some ⟨[], [], 1, 0, 0, 1⟩ :=
  C1_short_input_zero_activity mdConfig [[("power", 5)]] rfl (by simp) (by with_unfolding_all decide)

/-- C5 (counterexample): the composite similarity score is not symmetric,
against the claim.  For the windows `[10]` and `[11]` every constituent
except CER coincides in the two orders (KS p-value 1, correlation 0, shape 1,
trend 0), but `cer([10],[11]) = 1/10` while `cer([11],[10]) = 1/11`, giving
scores `9/20` vs `101/220`: a gap of `1/110 ≈ 0.009`, far beyond floating
tolerance. -/
theorem C5_score_not_symmetric :
    calculate_similarity_score_1d defaultConfig [10] [11] =
      some ⟨9/20, 1, 0, 1/10, 1, 0⟩ ∧
    calculate_similarity_score_1d defaultConfig [11] [10] =
      some ⟨101/220, 1, 0, 1/11, 1, 0⟩ ∧
    ((9 : ℚ)/20 ≠ 101/220) :=
  ⟨by with_unfolding_all decide, by with_unfolding_all decide, by norm_num⟩

/-- C6 (code bug): the claim describes the archive-resurrection path of
`create_template`, but that path is dead.  Here the store is over 80% full,
the archive holds template 7 whose data `[0, 2]` scores similarity `1 > 0.9`
against the incoming window, yet the scan selects nothing
(`resurrection_result = none`, because `similarity > 0.9` compares the
5-tuple returned by `calculate_similarity_score` with a float, raising a
`TypeError` that the `except` swallows): `create_template` instead builds a
fresh template under id 2 and leaves entry 7 in the archive. -/
theorem C6_resurrection_never_fires :
    resurrection_result resCfg (TData.flat [0, 2]) resState = none ∧
    (calculate_similarity_score_1d resCfg [0, 2] [0, 2]).map SimDetails.score = some 1 ∧
    ((9 : ℚ)/10 < 1) ∧
    resState.merged_templates.isEmpty = false ∧
    ((resCfg.max_templates : ℚ) * (8/10) < (resState.templates.length : ℚ)) ∧
    (create_template resCfg (TData.flat [0, 2]) resState).map
        (fun p => (p.1, alHasKey p.2.merged_templates 7, alGet p.2.templates p.1)) =
      some (2, true, some (TData.flat [0, 2])) :=
  ⟨rfl, by with_unfolding_all decide, by norm_num, rfl, by with_unfolding_all decide, by with_unfolding_all decide⟩

/-- C7 (code bug): `merge_similar_templates` never forms a merge candidate.
In `mergeState`, the pair (2, 3) holds identical data `[0, 2]` with usage
counts 3 and 1 and similarity `1`, above the default threshold `0.9` — the
claim says such a pair becomes a merge candidate (and the spec's scenario
expects it to be merged and archived) — yet the call returns `0` and leaves
the state untouched, because `similarity > merge_threshold` compares the
returned 5-tuple with a float and the raised `TypeError` is swallowed
per-pair.  Moreover the pair (1, 2), with usage counts 20 and 3, *is*
examined, although the claim says similarity is computed only when neither
side exceeds usage 10 (the code skips a pair only when both sides do). -/
theorem C7_merge_never_happens :
    (2, 3) ∈ merge_examined_pairs mergeState ∧
    (1, 2) ∈ merge_examined_pairs mergeState ∧
    alGetD mergeState.template_usage 1 0 = 20 ∧
    alGetD mergeState.template_usage 2 0 = 3 ∧
    alGetD mergeState.template_usage 3 0 = 1 ∧
    (calculate_similarity_score_1d defaultConfig [0, 2] [0, 2]).map SimDetails.score =
      some 1 ∧
    defaultConfig.template_merge_threshold < 1 ∧
    merge_similar_templates defaultConfig mergeState = (0, mergeState) :=
  ⟨by with_unfolding_all decide, by with_unfolding_all decide, by with_unfolding_all decide, by with_unfolding_all decide, by with_unfolding_all decide, by with_unfolding_all decide, by with_unfolding_all decide, rfl⟩

/-- C8 (counterexample): in the multi-dimensional path, windows whose shared
dimension is far shorter than `min_values` (length 1 against the default 10)
are *not* rejected: the undersized-dimension loop only emits a debug log, the
similarity is still evaluated, and here `is_similar` returns `True`. -/
theorem C8_md_short_inputs_can_match :
    (is_similar_md mdConfig [("power", [10])] [("power", [11])]).1 = true ∧
    mdConfig.min_values = 10 ∧ [(10 : ℚ)].length < mdConfig.min_values :=
  ⟨by with_unfolding_all decide, rfl, by with_unfolding_all decide⟩

/-- C8 (amended): only the one-dimensional path rejects inputs shorter than
`min_values` outright; the multi-dimensional path merely logs undersized
shared dimensions and can still report a match (see the counterexample). -/
theorem C8_1d_short_inputs_rejected (cfg : Config) (d1 d2 : List ℚ)
    (h : d1.length < cfg.min_values ∨ d2.length < cfg.min_values) :
    is_similar_1d cfg d1 d2 = (false, 0, 0) := by
  unfold is_similar_1d
  rw [if_pos h]

/-- Witness for C8: the default configuration rejects length-1 flat inputs. -/
theorem C8_1d_short_witness :
    ([(1 : ℚ)].length < defaultConfig.min_values ∨
      [(2 : ℚ)].length < defaultConfig.min_values) ∧
    is_similar_1d defaultConfig [1] [2] = (false, 0, 0) :=
  ⟨Or.inl (by with_unfolding_all decide),
   C8_1d_short_inputs_rejected defaultConfig [1] [2] (Or.inl (by with_unfolding_all decide))⟩

/-- C9: every input that is not a non-empty list of per-dimension dicts in
multi-dimensional mode — a flat sequence in any mode, an empty list, or any
input with `multi_dimensional` disabled — reaches the single-dimension branch
of `compress`, whose body the source elides (`pass`), so the call returns
`None` instead of a `CompressionResult`. -/
theorem C9_single_dimension_stub (cfg : Config) (input : CompressInput)
    (h : (∃ xs, input = .flat xs) ∨ input = .md [] ∨ cfg.multi_dimensional = false) :
    compress cfg input = none := by
  rcases h with ⟨xs, rfl⟩ | rfl | hm
  · rfl
  · unfold compress runCompress
    simp
  · cases input with
    | flat xs => rfl
    | md samples =>
      unfold compress runCompress
      simp [hm]

/-- Witness for C9: a flat numeric sequence in multi-dimensional mode. -/
theorem C9_flat_witness : compress mdConfig (.flat [1, 2, 3]) = none :=
  C9_single_dimension_stub mdConfig (.flat [1, 2, 3]) (Or.inl ⟨[1, 2, 3], rfl⟩)

/-- C10: a `CompressionResult` can reference a deleted template.  With
capacity 1 and block size 1, the two-sample run encodes block 0 against
template 1; creating template 2 for block 1 then evicts template 1 (lowest
importance), but the encoded stream keeps id 1, which is no longer a key of
the returned `templates` map — the result is not self-contained. -/
theorem C10_result_not_self_contained :
    (compress smallCfg smallInput).map
        (fun r => (r.encoded_stream, alKeys r.templates)) =
      some ([⟨1, 0, 1⟩, ⟨2, 1, 1⟩], [2]) ∧
    (([2] : List ℕ).contains 1 = false) :=
  ⟨by with_unfolding_all decide, by with_unfolding_all decide⟩

theorem pyIntNat_le_mul (n : ℕ) (q : ℚ) (h : 1 ≤ q) : n ≤ pyIntNat ((n : ℚ) * q) := by
  unfold pyIntNat
  have h1 : (n : ℚ) ≤ (n : ℚ) * q := le_mul_of_one_le_right (by positivity) h
  have h2 : (n : ℤ) ≤ ⌊(n : ℚ) * q⌋ := by
    rw [Int.le_floor]
    exact_mod_cast h1
  omega

theorem applyOverrides_bounds (cfg : Config) (nbest bp nnew : ℕ)
    (rhr rsim st hrt : ℚ) (reason : String)
    (hmm : cfg.min_block_size ≤ cfg.max_block_size)
    (hmax : nbest ≠ cfg.max_block_size) (hmin : nbest ≠ cfg.min_block_size)
    (hlate : 3 * cfg.min_blocks_before_adjustment < bp) :
    cfg.min_block_size ≤ (applyOverrides cfg nbest bp nnew rhr rsim st hrt reason).1 ∧
      (applyOverrides cfg nbest bp nnew rhr rsim st hrt reason).1 ≤ cfg.max_block_size := by
  unfold applyOverrides overrideEarly overrideMin overrideMax
  have h1 : ¬(nbest = cfg.max_block_size ∧ (hrt < 0 ∨ st < 0)) := fun h => hmax h.1
  have h2 : ¬(bp ≤ 3 * cfg.min_blocks_before_adjustment) := Nat.not_le.mpr hlate
  simp only [if_neg h1, if_neg hmin, if_neg h2]
  exact ⟨le_max_left _ _, max_le hmm (min_le_left _ _)⟩

theorem adjustBookkeeping_cbs (cfg : Config) (s : CState) :
    (adjustBookkeeping cfg s).2.current_block_size = s.current_block_size := by
  unfold adjustBookkeeping
  dsimp only
  split_ifs <;> rfl

theorem adjustBookkeeping_blocks (cfg : Config) (s : CState) :
    (adjustBookkeeping cfg s).2.blocks_processed = s.blocks_processed := by
  unfold adjustBookkeeping
  dsimp only
  split_ifs <;> rfl

theorem adjustBookkeeping_encoded (cfg : Config) (s : CState) :
    (adjustBookkeeping cfg s).2.encoded_stream = s.encoded_stream := by
  unfold adjustBookkeeping
  dsimp only
  split_ifs <;> rfl

theorem detect_trend_cbs (cfg : Config) (vals : List ℚ) (s : CState) :
    (detect_trend cfg vals s).2.current_block_size = s.current_block_size := by
  unfold detect_trend
  dsimp only
  split_ifs <;> rfl

theorem detect_trend_blocks (cfg : Config) (vals : List ℚ) (s : CState) :
    (detect_trend cfg vals s).2.blocks_processed = s.blocks_processed := by
  unfold detect_trend
  dsimp only
  split_ifs <;> rfl

theorem detect_trend_encoded (cfg : Config) (vals : List ℚ) (s : CState) :
    (detect_trend cfg vals s).2.encoded_stream = s.encoded_stream := by
  unfold detect_trend
  dsimp only
  split_ifs <;> rfl

theorem ite_override_fst (C : Prop) [Decidable C] (cfg : Config)
    (nbest bp nnew : ℕ) (rhr rsim st hrt : ℚ) (reason0 : String)
    (hmm : cfg.min_block_size ≤ cfg.max_block_size)
    (hmax : nbest ≠ cfg.max_block_size) (hmin : nbest ≠ cfg.min_block_size)
    (hlate : 3 * cfg.min_blocks_before_adjustment < bp) :
    (if C then applyOverrides cfg nbest bp nnew rhr rsim st hrt reason0
     else (nbest, reason0)).1 = nbest ∨
      (cfg.min_block_size ≤
        (if C then applyOverrides cfg nbest bp nnew rhr rsim st hrt reason0
         else (nbest, reason0)).1 ∧
       (if C then applyOverrides cfg nbest bp nnew rhr rsim st hrt reason0
        else (nbest, reason0)).1 ≤ cfg.max_block_size) := by
  split
  · right
    exact applyOverrides_bounds cfg nbest bp nnew rhr rsim st hrt reason0 hmm hmax hmin hlate
  · left
    rfl

theorem adjustWrite_fst (cfg : Config) (chr : ℚ) (trend : Bool × ℤ × ℚ)
    (rcer rsim st rhr hrt : ℚ) (s : CState)
    (hmm : cfg.min_block_size ≤ cfg.max_block_size)
    (hmax : s.current_block_size ≠ cfg.max_block_size)
    (hmin : s.current_block_size ≠ cfg.min_block_size)
    (hlate : 3 * cfg.min_blocks_before_adjustment < s.blocks_processed) :
    (adjustWrite cfg chr trend rcer rsim st rhr hrt s).1 = s.current_block_size ∨
      (cfg.min_block_size ≤ (adjustWrite cfg chr trend rcer rsim st rhr hrt s).1 ∧
       (adjustWrite cfg chr trend rcer rsim st rhr hrt s).1 ≤ cfg.max_block_size) := by
  unfold adjustWrite
  dsimp only
  exact ite_override_fst _ cfg _ _ _ _ _ _ _ _ hmm hmax hmin hlate

theorem adjustDecide_fst (cfg : Config) (chr : ℚ) (trend : Bool × ℤ × ℚ)
    (s : CState)
    (hmm : cfg.min_block_size ≤ cfg.max_block_size)
    (hmax : s.current_block_size ≠ cfg.max_block_size)
    (hmin : s.current_block_size ≠ cfg.min_block_size)
    (hlate : 3 * cfg.min_blocks_before_adjustment < s.blocks_processed) :
    (adjustDecide cfg chr trend s).1 = s.current_block_size ∨
      (cfg.min_block_size ≤ (adjustDecide cfg chr trend s).1 ∧
       (adjustDecide cfg chr trend s).1 ≤ cfg.max_block_size) := by
  unfold adjustDecide
  dsimp only
  exact adjustWrite_fst cfg chr trend _ _ _ _ _ s hmm hmax hmin hlate

theorem pyIntNat_one_le (q : ℚ) (h : 1 ≤ q) : 1 ≤ pyIntNat q := by
  unfold pyIntNat
  have h1 : (1 : ℤ) ≤ ⌊q⌋ := by
    rw [Int.le_floor]
    exact_mod_cast h
  omega

theorem overrideMax_pos (cfg : Config) (nbest : ℕ) (st hrt : ℚ) (v : ℕ × String)
    (hmax2 : 2 ≤ cfg.max_block_size) (hv : 1 ≤ v.1) :
    1 ≤ (overrideMax cfg nbest st hrt v).1 := by
  unfold overrideMax
  split
  next h =>
    apply pyIntNat_one_le
    have h2 : (2 : ℚ) ≤ (cfg.max_block_size : ℚ) := by exact_mod_cast hmax2
    rw [h.1]
    nlinarith
  next => exact hv

theorem overrideMin_pos (cfg : Config) (nbest : ℕ) (rhr rsim st hrt : ℚ)
    (v : ℕ × String) (hminb : 1 ≤ cfg.min_block_size) (hv : 1 ≤ v.1) :
    1 ≤ (overrideMin cfg nbest rhr rsim st hrt v).1 := by
  unfold overrideMin
  split
  next h =>
    have hn : 1 ≤ nbest := by
      rw [h]
      exact hminb
    split
    · exact le_trans hn (pyIntNat_le_mul nbest 2 (by norm_num))
    · split
      · exact le_trans hn (pyIntNat_le_mul nbest (3/2) (by norm_num))
      · exact le_trans hn (pyIntNat_le_mul nbest (13/10) (by norm_num))
  next => exact hv

theorem overrideEarly_pos (cfg : Config) (nbest bp : ℕ) (rhr rsim : ℚ)
    (v : ℕ × String) (hn : 1 ≤ nbest) (hv : 1 ≤ v.1) :
    1 ≤ (overrideEarly cfg nbest bp rhr rsim v).1 := by
  unfold overrideEarly
  split
  · split
    · split
      · exact le_trans hn (pyIntNat_le_mul nbest (3/2) (by norm_num))
      · exact hv
    · split
      · exact le_trans hn (pyIntNat_le_mul nbest (12/10) (by norm_num))
      · exact hv
  · exact hv

theorem applyOverrides_pos (cfg : Config) (nbest bp nnew : ℕ)
    (rhr rsim st hrt : ℚ) (reason : String)
    (hminb : 1 ≤ cfg.min_block_size) (hmax2 : 2 ≤ cfg.max_block_size)
    (hn : 1 ≤ nbest) :
    1 ≤ (applyOverrides cfg nbest bp nnew rhr rsim st hrt reason).1 := by
  unfold applyOverrides
  exact overrideEarly_pos _ _ _ _ _ _ hn
    (overrideMin_pos _ _ _ _ _ _ _ hminb
      (overrideMax_pos _ _ _ _ _ hmax2 (le_trans hminb (le_max_left _ _))))

theorem ite_override_fst_pos (C : Prop) [Decidable C] (cfg : Config)
    (nbest bp nnew : ℕ) (rhr rsim st hrt : ℚ) (reason0 : String)
    (hminb : 1 ≤ cfg.min_block_size) (hmax2 : 2 ≤ cfg.max_block_size)
    (hn : 1 ≤ nbest) :
    1 ≤ (if C then applyOverrides cfg nbest bp nnew rhr rsim st hrt reason0
         else (nbest, reason0)).1 := by
  split
  · exact applyOverrides_pos cfg nbest bp nnew rhr rsim st hrt reason0 hminb hmax2 hn
  · exact hn

theorem adjustWrite_fst_pos (cfg : Config) (chr : ℚ) (trend : Bool × ℤ × ℚ)
    (rcer rsim st rhr hrt : ℚ) (s : CState)
    (hminb : 1 ≤ cfg.min_block_size) (hmax2 : 2 ≤ cfg.max_block_size)
    (hn : 1 ≤ s.current_block_size) :
    1 ≤ (adjustWrite cfg chr trend rcer rsim st rhr hrt s).1 := by
  unfold adjustWrite
  dsimp only
  exact ite_override_fst_pos _ cfg _ _ _ _ _ _ _ _ hminb hmax2 hn

theorem adjustDecide_fst_pos (cfg : Config) (chr : ℚ) (trend : Bool × ℤ × ℚ)
    (s : CState) (hminb : 1 ≤ cfg.min_block_size) (hmax2 : 2 ≤ cfg.max_block_size)
    (hn : 1 ≤ s.current_block_size) :
    1 ≤ (adjustDecide cfg chr trend s).1 := by
  unfold adjustDecide
  dsimp only
  exact adjustWrite_fst_pos cfg chr trend _ _ _ _ _ s hminb hmax2 hn

theorem adjustWrite_cbs (cfg : Config) (chr : ℚ) (trend : Bool × ℤ × ℚ)
    (rcer rsim st rhr hrt : ℚ) (s : CState) :
    (adjustWrite cfg chr trend rcer rsim st rhr hrt s).2.current_block_size =
      (adjustWrite cfg chr trend rcer rsim st rhr hrt s).1 := by
  unfold adjustWrite
  dsimp only
  split_ifs <;> rfl

theorem adjustDecide_cbs (cfg : Config) (chr : ℚ) (trend : Bool × ℤ × ℚ)
    (s : CState) :
    (adjustDecide cfg chr trend s).2.current_block_size =
      (adjustDecide cfg chr trend s).1 := by
  unfold adjustDecide
  dsimp only
  exact adjustWrite_cbs cfg chr trend _ _ _ _ _ s

theorem adjustWrite_enc (cfg : Config) (chr : ℚ) (trend : Bool × ℤ × ℚ)
    (rcer rsim st rhr hrt : ℚ) (s : CState) :
    (adjustWrite cfg chr trend rcer rsim st rhr hrt s).2.encoded_stream =
      s.encoded_stream := by
  unfold adjustWrite
  dsimp only
  split_ifs <;> rfl

theorem adjustDecide_enc (cfg : Config) (chr : ℚ) (trend : Bool × ℤ × ℚ)
    (s : CState) :
    (adjustDecide cfg chr trend s).2.encoded_stream = s.encoded_stream := by
  unfold adjustDecide
  dsimp only
  exact adjustWrite_enc cfg chr trend _ _ _ _ _ s

theorem adjust_block_size_enc (cfg : Config) (s : CState) :
    (adjust_block_size cfg s).2.encoded_stream = s.encoded_stream := by
  unfold adjust_block_size
  dsimp only
  split
  · exact adjustBookkeeping_encoded cfg s
  · split
    · exact adjustBookkeeping_encoded cfg s
    · split
      · rw [adjustDecide_enc, detect_trend_encoded, adjustBookkeeping_encoded]
      · rw [adjustDecide_enc, adjustBookkeeping_encoded]

theorem adjust_block_size_cbs_pos (cfg : Config) (s : CState)
    (hminb : 1 ≤ cfg.min_block_size) (hmax2 : 2 ≤ cfg.max_block_size)
    (hn : 1 ≤ s.current_block_size) :
    1 ≤ (adjust_block_size cfg s).2.current_block_size := by
  have hc := adjustBookkeeping_cbs cfg s
  unfold adjust_block_size
  dsimp only
  split
  · rw [hc]
    exact hn
  · split
    · rw [hc]
      exact hn
    · split
      · rw [adjustDecide_cbs]
        apply adjustDecide_fst_pos _ _ _ _ hminb hmax2
        rw [detect_trend_cbs, hc]
        exact hn
      · rw [adjustDecide_cbs]
        apply adjustDecide_fst_pos _ _ _ _ hminb hmax2
        rw [hc]
        exact hn

/-- C4 (amended): whenever none of the three special-case override paths of
`adjust_block_size` can fire — the current size sits at neither bound and the
run is past the extended early phase — the adjusted size is either unchanged
or clamped into `[min_block_size, max_block_size]`.  The override paths
themselves run after the clamp, are unclamped, and can leave the range (see
the counterexample). -/
theorem C4_bounds_without_overrides (cfg : Config) (s : CState)
    (hmm : cfg.min_block_size ≤ cfg.max_block_size)
    (hmax : s.current_block_size ≠ cfg.max_block_size)
    (hmin : s.current_block_size ≠ cfg.min_block_size)
    (hlate : 3 * cfg.min_blocks_before_adjustment < s.blocks_processed) :
    (adjust_block_size cfg s).1 = s.current_block_size ∨
      (cfg.min_block_size ≤ (adjust_block_size cfg s).1 ∧
       (adjust_block_size cfg s).1 ≤ cfg.max_block_size) := by
  have hc := adjustBookkeeping_cbs cfg s
  have hb := adjustBookkeeping_blocks cfg s
  unfold adjust_block_size
  dsimp only
  split
  · exact Or.inl hc
  · split
    · exact Or.inl hc
    · split
      · have h1 : (detect_trend cfg [] (adjustBookkeeping cfg s).2).2.current_block_size
            = s.current_block_size := by
          rw [detect_trend_cbs]
          exact hc
        have h2 : (detect_trend cfg [] (adjustBookkeeping cfg s).2).2.blocks_processed
            = s.blocks_processed := by
          rw [detect_trend_blocks]
          exact hb
        have h3 := adjustDecide_fst cfg (adjustBookkeeping cfg s).1
          (detect_trend cfg [] (adjustBookkeeping cfg s).2).1
          (detect_trend cfg [] (adjustBookkeeping cfg s).2).2
          hmm (by rw [h1]; exact hmax) (by rw [h1]; exact hmin) (by rw [h2]; exact hlate)
        rw [h1] at h3
        exact h3
      · have h3 := adjustDecide_fst cfg (adjustBookkeeping cfg s).1 (false, 0, 0)
          (adjustBookkeeping cfg s).2
          hmm (by rw [hc]; exact hmax) (by rw [hc]; exact hmin) (by rw [hb]; exact hlate)
        rw [hc] at h3
        exact h3

/-- Witness for C4 (amended): a controller state with size 50 strictly
between the default bounds 10 and 120, sixteen blocks in. -/
theorem C4_bounds_witness :
    (adjust_block_size mdConfig adjState).1 = adjState.current_block_size ∨
      (mdConfig.min_block_size ≤ (adjust_block_size mdConfig adjState).1 ∧
       (adjust_block_size mdConfig adjState).1 ≤ mdConfig.max_block_size) :=
  C4_bounds_without_overrides mdConfig adjState (by decide) (by decide) (by decide)
    (by decide)

/-- C4 (counterexample): with `min_block_size = max_block_size = 10` the
forced min-bound increase is reachable and unclamped.  Running `compress` on
fifty constant samples, the `adjust_block_size` call after block 5 (the final
state records `last_adjustment_block = 5`) sets `current_block_size = 20`,
strictly above `max_block_size = 10`. -/
theorem C4_bounds_violated :
    (runCompress boundsCfg boundsInput).map
        (fun p => (p.1.current_block_size, p.1.last_adjustment_block,
                   p.1.blocks_processed)) = some (20, 5, 5) ∧
    boundsCfg.max_block_size = 10 ∧ ¬(20 ≤ boundsCfg.max_block_size) :=
  ⟨by with_unfolding_all decide, rfl, by with_unfolding_all decide⟩

/-! Preservation lemmas for the partition invariant: none of the per-block
store bookkeeping touches `encoded_stream`, and the per-block postlude keeps
`current_block_size` positive. -/

theorem foldl_pres {α σ γ : Type _} (f : σ → α → σ) (g : σ → γ)
    (hf : ∀ st a, g (f st a) = g st) (l : List α) (st : σ) :
    g (l.foldl f st) = g st := by
  induction l generalizing st with
  | nil => rfl
  | cons a t ih => exact (ih (f st a)).trans (hf st a)

theorem update_template_metrics_enc (tid : ℕ) (used : Bool) (s : CState) :
    (update_template_metrics tid used s).encoded_stream = s.encoded_stream := by
  unfold update_template_metrics
  dsimp only
  split_ifs <;> rfl

theorem update_template_metrics_cbs (tid : ℕ) (used : Bool) (s : CState) :
    (update_template_metrics tid used s).current_block_size =
      s.current_block_size := by
  unfold update_template_metrics
  dsimp only
  split_ifs <;> rfl

theorem calculate_template_importance_enc (cfg : Config) (s : CState) :
    (calculate_template_importance cfg s).encoded_stream = s.encoded_stream := by
  unfold calculate_template_importance
  dsimp only
  split_ifs <;> rfl

theorem calculate_template_importance_cbs (cfg : Config) (s : CState) :
    (calculate_template_importance cfg s).current_block_size =
      s.current_block_size := by
  unfold calculate_template_importance
  dsimp only
  split_ifs <;> rfl

theorem merge_similar_snd (cfg : Config) (s : CState) :
    (merge_similar_templates cfg s).2 = s := by
  unfold merge_similar_templates
  split_ifs <;> rfl

theorem archiveVictim_enc (st : CState) (tid : ℕ) :
    (archiveVictim st tid).encoded_stream = st.encoded_stream := by
  unfold archiveVictim
  dsimp only
  split_ifs <;> rfl

theorem archiveVictim_cbs (st : CState) (tid : ℕ) :
    (archiveVictim st tid).current_block_size = st.current_block_size := by
  unfold archiveVictim
  dsimp only
  split_ifs <;> rfl

theorem removeVictim_enc (st : CState) (tid : ℕ) :
    (removeVictim st tid).encoded_stream = st.encoded_stream := by
  unfold removeVictim
  split_ifs <;> rfl

theorem removeVictim_cbs (st : CState) (tid : ℕ) :
    (removeVictim st tid).current_block_size = st.current_block_size := by
  unfold removeVictim
  split_ifs <;> rfl

theorem foldl_archiveVictim_enc (l : List ℕ) (st : CState) :
    (l.foldl archiveVictim st).encoded_stream = st.encoded_stream :=
  foldl_pres archiveVictim (fun x => x.encoded_stream) archiveVictim_enc l st

theorem foldl_archiveVictim_cbs (l : List ℕ) (st : CState) :
    (l.foldl archiveVictim st).current_block_size = st.current_block_size :=
  foldl_pres archiveVictim (fun x => x.current_block_size) archiveVictim_cbs l st

theorem foldl_removeVictim_enc (l : List ℕ) (st : CState) :
    (l.foldl removeVictim st).encoded_stream = st.encoded_stream :=
  foldl_pres removeVictim (fun x => x.encoded_stream) removeVictim_enc l st

theorem foldl_removeVictim_cbs (l : List ℕ) (st : CState) :
    (l.foldl removeVictim st).current_block_size = st.current_block_size :=
  foldl_pres removeVictim (fun x => x.current_block_size) removeVictim_cbs l st

theorem clean_expired_enc (cfg : Config) (s : CState) :
    ((clean_expired_templates cfg s).2).encoded_stream = s.encoded_stream := by
  unfold clean_expired_templates
  dsimp only
  simp only [merge_similar_snd]
  split_ifs <;>
    first
      | rfl
      | simp only [foldl_removeVictim_enc, foldl_archiveVictim_enc,
          calculate_template_importance_enc]

theorem clean_expired_cbs (cfg : Config) (s : CState) :
    ((clean_expired_templates cfg s).2).current_block_size =
      s.current_block_size := by
  unfold clean_expired_templates
  dsimp only
  simp only [merge_similar_snd]
  split_ifs <;>
    first
      | rfl
      | simp only [foldl_removeVictim_cbs, foldl_archiveVictim_cbs,
          calculate_template_importance_cbs]

theorem create_template_pres (cfg : Config) (data : TData) (s : CState)
    (p : ℕ × CState) (h : create_template cfg data s = some p) :
    p.2.encoded_stream = s.encoded_stream ∧
      p.2.current_block_size = s.current_block_size := by
  unfold create_template at h
  simp only [resurrection_result] at h
  split_ifs at h
  all_goals
    first
      | (injection h with h'
         subst h'
         refine ⟨?_, ?_⟩ <;>
           simp only [update_template_metrics_enc, update_template_metrics_cbs,
             clean_expired_enc, clean_expired_cbs])
      | (split at h
         · exact Option.noConfusion h
         · split at h
           · exact Option.noConfusion h
           · injection h with h'
             subst h'
             refine ⟨?_, ?_⟩ <;>
               simp only [calculate_template_importance_enc,
                 calculate_template_importance_cbs, update_template_metrics_enc,
                 update_template_metrics_cbs, clean_expired_enc,
                 clean_expired_cbs])

theorem matchScanStep_enc (cfg : Config) (data : DimData)
    (m v r b : ℚ) (ht : Bool) (acc : List (ℕ × ℚ × ℚ) × CState) (p : ℕ × TData) :
    (matchScanStep cfg data m v r b ht acc p).2.encoded_stream =
      acc.2.encoded_stream := by
  unfold matchScanStep
  split
  · rfl
  · split
    · rfl
    · dsimp only
      split_ifs <;> simp only [update_template_metrics_enc]

theorem matchScanStep_cbs (cfg : Config) (data : DimData)
    (m v r b : ℚ) (ht : Bool) (acc : List (ℕ × ℚ × ℚ) × CState) (p : ℕ × TData) :
    (matchScanStep cfg data m v r b ht acc p).2.current_block_size =
      acc.2.current_block_size := by
  unfold matchScanStep
  split
  · rfl
  · split
    · rfl
    · dsimp only
      split_ifs <;> simp only [update_template_metrics_cbs]

theorem foldl_matchScan_enc (cfg : Config) (data : DimData)
    (m v r b : ℚ) (ht : Bool) (l : List (ℕ × TData))
    (acc : List (ℕ × ℚ × ℚ) × CState) :
    (l.foldl (matchScanStep cfg data m v r b ht) acc).2.encoded_stream =
      acc.2.encoded_stream :=
  foldl_pres (matchScanStep cfg data m v r b ht) (fun x => x.2.encoded_stream)
    (matchScanStep_enc cfg data m v r b ht) l acc

theorem foldl_matchScan_cbs (cfg : Config) (data : DimData)
    (m v r b : ℚ) (ht : Bool) (l : List (ℕ × TData))
    (acc : List (ℕ × ℚ × ℚ) × CState) :
    (l.foldl (matchScanStep cfg data m v r b ht) acc).2.current_block_size =
      acc.2.current_block_size :=
  foldl_pres (matchScanStep cfg data m v r b ht) (fun x => x.2.current_block_size)
    (matchScanStep_cbs cfg data m v r b ht) l acc

theorem find_matching_enc (cfg : Config) (data : DimData) (s : CState) :
    (find_matching_template_md cfg data s).2.encoded_stream =
      s.encoded_stream := by
  unfold find_matching_template_md
  split
  · rfl
  · split
    · rfl
    · dsimp only
      split
      · simp only [foldl_matchScan_enc, detect_trend_encoded]
      · split_ifs <;>
          simp only [update_template_metrics_enc, foldl_matchScan_enc,
            detect_trend_encoded]

theorem find_matching_cbs (cfg : Config) (data : DimData) (s : CState) :
    (find_matching_template_md cfg data s).2.current_block_size =
      s.current_block_size := by
  unfold find_matching_template_md
  split
  · rfl
  · split
    · rfl
    · dsimp only
      split
      · simp only [foldl_matchScan_cbs, detect_trend_cbs]
      · split_ifs <;>
          simp only [update_template_metrics_cbs, foldl_matchScan_cbs,
            detect_trend_cbs]

theorem processBlock_pres (cfg : Config) (block : DimData) (s : CState)
    (p : ℕ × CState) (h : processBlock cfg block s = some p) :
    p.2.encoded_stream = s.encoded_stream ∧
      p.2.current_block_size = s.current_block_size := by
  unfold processBlock at h
  dsimp only at h
  split at h
  · have hc := create_template_pres cfg (TData.md block)
      (find_matching_template_md cfg block s).2 p h
    refine ⟨?_, ?_⟩
    · rw [hc.1, find_matching_enc]
    · rw [hc.2, find_matching_cbs]
  · injection h with h'
    subst h'
    refine ⟨?_, ?_⟩ <;> simp only [find_matching_enc, find_matching_cbs]

theorem postBlock_enc (cfg : Config) (s : CState) :
    (postBlock cfg s).encoded_stream = s.encoded_stream := by
  unfold postBlock
  dsimp only
  split_ifs <;> first | rfl | rw [adjust_block_size_enc]

theorem postBlock_cbs_pos (cfg : Config) (s : CState)
    (hminb : 1 ≤ cfg.min_block_size) (hmax2 : 2 ≤ cfg.max_block_size)
    (h1 : 1 ≤ s.current_block_size) :
    1 ≤ (postBlock cfg s).current_block_size := by
  unfold postBlock
  dsimp only
  split_ifs <;>
    first
      | exact h1
      | exact adjust_block_size_cbs_pos cfg _ hminb hmax2 h1

theorem assembleResult_enc (cfg : Config) (n : ℕ) (dims : List String)
    (s : CState) :
    (assembleResult cfg n dims s).encoded_stream = s.encoded_stream := rfl

theorem blocksSpanB_append (l : List EncodedBlock) (j i len tid : ℕ)
    (h : blocksSpanB j l i = true) (hlen : 1 ≤ len) :
    blocksSpanB j (l ++ [⟨tid, i, len⟩]) (i + len) = true := by
  induction l generalizing j with
  | nil =>
    simp only [blocksSpanB, beq_iff_eq] at h
    subst h
    simp [blocksSpanB, hlen]
  | cons b rest ih =>
    simp only [List.cons_append, blocksSpanB, Bool.and_eq_true,
      decide_eq_true_eq] at h ⊢
    exact ⟨h.1, ih _ h.2⟩

theorem driverLoop_span (cfg : Config)
    (pre : DimData → CState → Option (ℕ × CState)) (post : CState → CState)
    (hpre : ∀ b st q, pre b st = some q →
      q.2.encoded_stream = st.encoded_stream)
    (hpostE : ∀ st, (post st).encoded_stream = st.encoded_stream)
    (fuel : ℕ) :
    ∀ (rem : List Sample) (i n : ℕ) (s s' : CState),
      rem.length = n - i → i ≤ n →
      blocksSpanB 0 s.encoded_stream i = true →
      driverLoop cfg pre post fuel rem i n s = some s' →
      blocksSpanB 0 s'.encoded_stream n = true := by
  induction fuel with
  | zero =>
    intro rem i n s s' hrl hin hspan h
    unfold driverLoop at h
    split_ifs at h with hre
    · injection h with h'
      subst h'
      have h0 : rem.length = 0 := List.isEmpty_iff_length_eq_zero.mp hre
      have hni : n = i := by omega
      rw [hni]
      exact hspan
  | succ fuel ih =>
    intro rem i n s s' hrl hin hspan h
    unfold driverLoop at h
    by_cases hre : rem.isEmpty
    · rw [if_pos hre] at h
      injection h with h'
      subst h'
      have h0 : rem.length = 0 := List.isEmpty_iff_length_eq_zero.mp hre
      have hni : n = i := by omega
      rw [hni]
      exact hspan
    · rw [if_neg hre] at h
      dsimp only at h
      by_cases hbs : min s.current_block_size (n - i) = 0
      · rw [if_pos hbs] at h
        exact Option.noConfusion h
      · rw [if_neg hbs] at h
        have hb1 : 1 ≤ min s.current_block_size (n - i) := by omega
        have hble : min s.current_block_size (n - i) ≤ n - i := min_le_right _ _
        split at h
        · exact Option.noConfusion h
        · rename_i tid s1 hp
          refine ih _ _ _ _ _ ?_ ?_ ?_ h
          · simp only [List.length_drop, hrl]
            omega
          · omega
          · rw [hpostE]
            show blocksSpanB 0
              (s1.encoded_stream ++
                [⟨tid, i, min s.current_block_size (n - i)⟩]) _ = true
            rw [hpre _ _ _ hp]
            exact blocksSpanB_append _ _ _ _ _ hspan hb1

/-- C2: for every configuration and every multi-dimensional input of length
`n ≥ min_block_size`, whenever `compress` returns a result its
`encoded_stream` partitions `[0, n)` exactly: blocks are contiguous, in
ascending order, non-overlapping and gapless, with every block of positive
length.  (The driver advances `i` by exactly the length it slices and
encodes; the matching, creation and adjustment machinery never touches
`encoded_stream` except for the one append per block.) -/
theorem C2_stream_partitions (cfg : Config) (samples : List Sample)
    (res : CompressionResult)
    (hlen : cfg.min_block_size ≤ samples.length)
    (h : compress cfg (.md samples) = some res) :
    StreamPartitions res.encoded_stream samples.length := by
  unfold compress at h
  obtain ⟨q, hq, hres⟩ := Option.map_eq_some'.mp h
  subst hres
  unfold runCompress at hq
  dsimp only at hq
  split_ifs at hq with hA hB
  · omega
  · split at hq
    · exact Option.noConfusion hq
    · rename_i s' heq
      injection hq with h'
      subst h'
      show blocksSpanB 0
        (assembleResult cfg samples.length
          (List.map (fun p => p.1) (samples.headD [])) s').encoded_stream
        samples.length = true
      rw [assembleResult_enc]
      refine driverLoop_span cfg _ _
        (fun b st q hh => (processBlock_pres cfg b st q hh).1)
        (postBlock_enc cfg) samples.length samples 0 samples.length _ s'
        ?_ ?_ ?_ heq
      · omega
      · exact Nat.zero_le _
      · rfl

/-- Witness for C2: the two-sample run of `smallCfg` yields the stream
`[(1, 0, 1), (2, 1, 1)]`, which partitions `[0, 2)`. -/
theorem C2_stream_partitions_witness :
    StreamPartitions
      (CompressionResult.mk [(2, TData.md [("x", [2])])]
        [⟨1, 0, 1⟩, ⟨2, 1, 1⟩] (4/9) 0 0 2).encoded_stream 2 :=
  C2_stream_partitions smallCfg [[("x", 1)], [("x", 2)]]
    (CompressionResult.mk [(2, TData.md [("x", [2])])]
      [⟨1, 0, 1⟩, ⟨2, 1, 1⟩] (4/9) 0 0 2)
    (by decide) (by with_unfolding_all decide)

/-! Dictionary lemmas for the capacity invariant. -/

section AssocLemmas

variable {α : Type}

theorem alHasKey_eq_keys_mem (m : List (ℕ × α)) (k : ℕ) :
    alHasKey m k = true ↔ k ∈ alKeys m := by
  unfold alHasKey alGet alKeys
  rw [Option.isSome_map']
  rw [List.find?_isSome]
  constructor
  · rintro ⟨x, hx, hpx⟩
    exact List.mem_map.mpr ⟨x, hx, by simpa using hpx⟩
  · intro hk
    obtain ⟨x, hx, hxk⟩ := List.mem_map.mp hk
    exact ⟨x, hx, by simp [hxk]⟩

theorem alHasKey_of_mem (m : List (ℕ × α)) (q : ℕ × α) (hq : q ∈ m) :
    alHasKey m q.1 = true :=
  (alHasKey_eq_keys_mem m q.1).mpr (List.mem_map_of_mem _ hq)

theorem alHasKey_of_bound (m : List (ℕ × α)) (c : ℕ)
    (hdom : ∀ q ∈ m, q.1 ≤ c) : alHasKey m (c + 1) = false := by
  cases hh : alHasKey m (c + 1) with
  | false => rfl
  | true =>
    obtain ⟨x, hx, hxk⟩ := List.mem_map.mp ((alHasKey_eq_keys_mem m (c + 1)).mp hh)
    have := hdom x hx
    omega

theorem alSet_length_fresh (m : List (ℕ × α)) (k : ℕ) (v : α)
    (h : alHasKey m k = false) : (alSet m k v).length = m.length + 1 := by
  unfold alSet
  rw [if_neg (by simp [h])]
  simp

theorem alKeys_set_fresh (m : List (ℕ × α)) (k : ℕ) (v : α)
    (h : alHasKey m k = false) : alKeys (alSet m k v) = alKeys m ++ [k] := by
  unfold alSet alKeys
  rw [if_neg (by simp [h])]
  simp

theorem alKeys_set_stale (m : List (ℕ × α)) (k : ℕ) (v : α)
    (h : alHasKey m k = true) : alKeys (alSet m k v) = alKeys m := by
  unfold alSet alKeys
  rw [if_pos h]
  rw [List.map_map]
  refine List.map_congr_left ?_
  intro x _
  by_cases hxk : x.1 = k <;> simp [hxk]

theorem alSet_keys_nodup (m : List (ℕ × α)) (k : ℕ) (v : α)
    (h : (alKeys m).Nodup) : (alKeys (alSet m k v)).Nodup := by
  cases hk : alHasKey m k with
  | true =>
    rw [alKeys_set_stale m k v hk]
    exact h
  | false =>
    rw [alKeys_set_fresh m k v hk]
    have hnk : ¬k ∈ alKeys m := fun hm => by
      rw [(alHasKey_eq_keys_mem m k).mpr hm] at hk
      exact Bool.noConfusion hk
    simp [List.nodup_append, h, hnk]

theorem alSet_hasKey_self (m : List (ℕ × α)) (k : ℕ) (v : α) :
    alHasKey (alSet m k v) k = true := by
  apply (alHasKey_eq_keys_mem _ _).mpr
  cases hk : alHasKey m k with
  | true =>
    rw [alKeys_set_stale m k v hk]
    exact (alHasKey_eq_keys_mem m k).mp hk
  | false =>
    rw [alKeys_set_fresh m k v hk]
    simp

theorem alSet_hasKey_mono (m : List (ℕ × α)) (k j : ℕ) (v : α)
    (h : alHasKey m j = true) : alHasKey (alSet m k v) j = true := by
  apply (alHasKey_eq_keys_mem _ _).mpr
  cases hk : alHasKey m k with
  | true =>
    rw [alKeys_set_stale m k v hk]
    exact (alHasKey_eq_keys_mem m j).mp h
  | false =>
    rw [alKeys_set_fresh m k v hk]
    exact List.mem_append_left _ ((alHasKey_eq_keys_mem m j).mp h)

theorem alSet_mem_keys (m : List (ℕ × α)) (k : ℕ) (v : α) (q : ℕ × α)
    (h : q ∈ alSet m k v) : q.1 = k ∨ q.1 ∈ alKeys m := by
  unfold alSet at h
  by_cases hk : alHasKey m k = true
  · rw [if_pos hk] at h
    obtain ⟨x, hx, hxq⟩ := List.mem_map.mp h
    by_cases hxk : (x.1 == k) = true
    · rw [if_pos hxk] at hxq
      left
      rw [← hxq]
    · rw [if_neg hxk] at hxq
      right
      rw [← hxq]
      exact List.mem_map_of_mem _ hx
  · rw [if_neg hk] at h
    rcases List.mem_append.mp h with h1 | h1
    · right
      exact List.mem_map_of_mem _ h1
    · left
      simp only [List.mem_singleton] at h1
      rw [h1]

theorem alKeys_erase (m : List (ℕ × α)) (k : ℕ) :
    alKeys (alErase m k) = (alKeys m).filter (fun j => j != k) := by
  unfold alKeys alErase
  induction m with
  | nil => rfl
  | cons p t ih =>
    simp only [List.filter_cons, List.map_cons]
    by_cases hp : (p.1 != k) = true
    · rw [if_pos hp, List.map_cons, ih, if_pos hp]
    · rw [if_neg hp, ih, if_neg hp]

theorem alErase_length_le (m : List (ℕ × α)) (k : ℕ) :
    (alErase m k).length ≤ m.length :=
  List.length_filter_le _ _

theorem alErase_keys_nodup (m : List (ℕ × α)) (k : ℕ)
    (h : (alKeys m).Nodup) : (alKeys (alErase m k)).Nodup := by
  rw [alKeys_erase]
  exact h.filter _

theorem alErase_mem (m : List (ℕ × α)) (k : ℕ) (q : ℕ × α)
    (h : q ∈ alErase m k) : q ∈ m ∧ q.1 ≠ k := by
  unfold alErase at h
  have h2 := List.mem_filter.mp h
  exact ⟨h2.1, by simpa using h2.2⟩

theorem alErase_hasKey_ne (m : List (ℕ × α)) (k j : ℕ) (hne : j ≠ k) :
    alHasKey (alErase m k) j = alHasKey m j := by
  rw [Bool.eq_iff_iff, alHasKey_eq_keys_mem, alHasKey_eq_keys_mem, alKeys_erase]
  simp [List.mem_filter, hne]

theorem keys_filter_length (l : List ℕ) (k : ℕ) (hnd : l.Nodup) (hk : k ∈ l) :
    (l.filter (fun j => j != k)).length + 1 = l.length := by
  induction l with
  | nil => cases hk
  | cons a t ih =>
    rw [List.nodup_cons] at hnd
    rcases List.mem_cons.mp hk with h | h
    · subst h
      rw [List.filter_cons_of_neg (by simp)]
      rw [List.filter_eq_self.mpr ?_]
      · simp
      · intro x hx
        simp only [ne_eq, bne_iff_ne]
        exact fun hxk => hnd.1 (hxk ▸ hx)
    · have hak : a ≠ k := fun he => hnd.1 (he ▸ h)
      rw [List.filter_cons_of_pos (by simp [hak])]
      simp only [List.length_cons]
      rw [ih hnd.2 h]

theorem alErase_length_mem (m : List (ℕ × α)) (k : ℕ)
    (h : alHasKey m k = true) (hnd : (alKeys m).Nodup) :
    (alErase m k).length + 1 = m.length := by
  have hk : k ∈ alKeys m := (alHasKey_eq_keys_mem m k).mp h
  have h1 : (alErase m k).length = (alKeys (alErase m k)).length :=
    (List.length_map _ _).symm
  have h2 : m.length = (alKeys m).length := (List.length_map _ _).symm
  rw [h1, h2, alKeys_erase]
  exact keys_filter_length (alKeys m) k hnd hk

theorem alGet_of_mem_nodup (m : List (ℕ × α)) (q : ℕ × α)
    (hnd : (alKeys m).Nodup) (hq : q ∈ m) : alGet m q.1 = some q.2 := by
  induction m with
  | nil => cases hq
  | cons p t ih =>
    rw [show alKeys (p :: t) = p.1 :: alKeys t from rfl, List.nodup_cons] at hnd
    rcases List.mem_cons.mp hq with h | h
    · subst h
      unfold alGet
      rw [List.find?_cons_of_pos _ (by simp)]
      rfl
    · have hne : (p.1 == q.1) = false := by
        simp only [beq_eq_false_iff_ne, ne_eq]
        exact fun he => hnd.1 (he ▸ List.mem_map_of_mem _ h)
      unfold alGet
      rw [List.find?_cons]
      simp only [hne]
      exact ih hnd.2 h

end AssocLemmas

theorem foldl_min_spec (t : List (ℕ × ℚ)) (b0 : ℕ × ℚ) :
    (t.foldl (fun b p => if p.2 < b.2 then p else b) b0 = b0 ∨
      t.foldl (fun b p => if p.2 < b.2 then p else b) b0 ∈ t) ∧
    ∀ q ∈ b0 :: t, (t.foldl (fun b p => if p.2 < b.2 then p else b) b0).2 ≤ q.2 := by
  induction t generalizing b0 with
  | nil =>
    refine ⟨Or.inl rfl, ?_⟩
    intro q hq
    simp only [List.mem_singleton] at hq
    rw [hq]
    exact le_of_eq rfl
  | cons p t ih =>
    obtain ⟨ihm, ihle⟩ := ih (if p.2 < b0.2 then p else b0)
    constructor
    · rw [List.foldl_cons]
      rcases ihm with h | h
      · rw [h]
        split_ifs
        · right
          exact List.mem_cons_self _ _
        · left
          rfl
      · right
        exact List.mem_cons_of_mem _ h
    · intro q hq
      rw [List.foldl_cons]
      rcases List.mem_cons.mp hq with h | h
      · subst h
        refine le_trans (ihle _ (List.mem_cons_self _ _)) ?_
        split_ifs with hc
        · exact le_of_lt hc
        · exact le_refl _
      · rcases List.mem_cons.mp h with h2 | h2
        · subst h2
          refine le_trans (ihle _ (List.mem_cons_self _ _)) ?_
          split_ifs with hc
          · exact le_refl _
          · exact le_of_not_lt hc
        · exact ihle q (List.mem_cons_of_mem _ h2)

theorem minByVal_spec (m : List (ℕ × ℚ)) (k : ℕ) (h : minByVal m = some k) :
    ∃ v, (k, v) ∈ m ∧ ∀ q ∈ m, v ≤ q.2 := by
  cases m with
  | nil => exact Option.noConfusion h
  | cons h0 t =>
    unfold minByVal at h
    injection h with h'
    obtain ⟨hm, hle⟩ := foldl_min_spec t h0
    refine ⟨(t.foldl (fun b p => if p.2 < b.2 then p else b) h0).2, ?_, ?_⟩
    · rw [← h', Prod.mk.eta]
      rcases hm with h1 | h1
      · rw [h1]
        exact List.mem_cons_self _ _
      · exact List.mem_cons_of_mem _ h1
    · exact hle

theorem foldl_inv {σ β : Type _} (P : σ → Prop) (f : σ → β → σ) (l : List β)
    (s0 : σ) (h0 : P s0) (hstep : ∀ st a, a ∈ l → P st → P (f st a)) :
    P (l.foldl f s0) := by
  induction l generalizing s0 with
  | nil => exact h0
  | cons a t ih =>
    exact ih (f s0 a) (hstep s0 a (List.mem_cons_self _ _) h0)
      (fun st b hb hP => hstep st b (List.mem_cons_of_mem _ hb) hP)

theorem update_template_metrics_templates (tid : ℕ) (used : Bool) (s : CState) :
    (update_template_metrics tid used s).templates = s.templates := by
  unfold update_template_metrics
  dsimp only
  split_ifs <;> rfl

theorem update_template_metrics_importance (tid : ℕ) (used : Bool) (s : CState) :
    (update_template_metrics tid used s).template_importance =
      s.template_importance := by
  unfold update_template_metrics
  dsimp only
  split_ifs <;> rfl

theorem calculate_template_importance_templates (cfg : Config) (s : CState) :
    (calculate_template_importance cfg s).templates = s.templates := by
  unfold calculate_template_importance
  dsimp only
  split_ifs <;> rfl

theorem archiveVictim_templates (st : CState) (tid : ℕ) :
    (archiveVictim st tid).templates = st.templates := by
  unfold archiveVictim
  dsimp only
  split_ifs <;> rfl

theorem archiveVictim_importance (st : CState) (tid : ℕ) :
    (archiveVictim st tid).template_importance = st.template_importance := by
  unfold archiveVictim
  dsimp only
  split_ifs <;> rfl

theorem archiveVictim_counter (st : CState) (tid : ℕ) :
    (archiveVictim st tid).template_counter = st.template_counter := by
  unfold archiveVictim
  dsimp only
  split_ifs <;> rfl

theorem removeVictim_counter (st : CState) (tid : ℕ) :
    (removeVictim st tid).template_counter = st.template_counter := by
  unfold removeVictim
  split_ifs <;> rfl

theorem foldl_archiveVictim_templates (l : List ℕ) (st : CState) :
    (l.foldl archiveVictim st).templates = st.templates :=
  foldl_pres archiveVictim (fun x => x.templates) archiveVictim_templates l st

theorem foldl_archiveVictim_importance (l : List ℕ) (st : CState) :
    (l.foldl archiveVictim st).template_importance = st.template_importance :=
  foldl_pres archiveVictim (fun x => x.template_importance)
    archiveVictim_importance l st

theorem foldl_archiveVictim_counter (l : List ℕ) (st : CState) :
    (l.foldl archiveVictim st).template_counter = st.template_counter :=
  foldl_pres archiveVictim (fun x => x.template_counter) archiveVictim_counter l st

theorem foldl_removeVictim_counter (l : List ℕ) (st : CState) :
    (l.foldl removeVictim st).template_counter = st.template_counter :=
  foldl_pres removeVictim (fun x => x.template_counter) removeVictim_counter l st

theorem calculate_template_importance_counter (cfg : Config) (s : CState) :
    (calculate_template_importance cfg s).template_counter =
      s.template_counter := by
  unfold calculate_template_importance
  dsimp only
  split_ifs <;> rfl

theorem clean_expired_counter (cfg : Config) (s : CState) :
    ((clean_expired_templates cfg s).2).template_counter = s.template_counter := by
  unfold clean_expired_templates
  dsimp only
  simp only [merge_similar_snd]
  split_ifs <;>
    first
      | rfl
      | simp only [foldl_removeVictim_counter, foldl_archiveVictim_counter,
          calculate_template_importance_counter]

theorem cti_importance_inv (cfg : Config) (s : CState)
    (hI : (alKeys s.template_importance).Nodup)
    (hsub : ∀ q ∈ s.template_importance, alHasKey s.templates q.1 = true) :
    (alKeys (calculate_template_importance cfg s).template_importance).Nodup ∧
      ∀ q ∈ (calculate_template_importance cfg s).template_importance,
        alHasKey s.templates q.1 = true := by
  unfold calculate_template_importance
  dsimp only
  split_ifs <;>
    first
      | exact ⟨hI, hsub⟩
      | (refine foldl_inv
           (fun m => (alKeys m).Nodup ∧ ∀ q ∈ m, alHasKey s.templates q.1 = true)
           _ s.templates s.template_importance ⟨hI, hsub⟩ ?_
         intro m p hp hm
         refine ⟨alSet_keys_nodup _ _ _ hm.1, ?_⟩
         intro q hq
         rcases alSet_mem_keys _ _ _ _ hq with h1 | h1
         · rw [h1]
           exact alHasKey_of_mem _ _ hp
         · obtain ⟨x, hx, hxk⟩ := List.mem_map.mp h1
           rw [← hxk]
           exact hm.2 x hx)

theorem removeVictim_inv (N c : ℕ) (st : CState) (tid : ℕ)
    (h : storeInv N c st) : storeInv N c (removeVictim st tid) := by
  obtain ⟨h1, h2, h3, h4, h5⟩ := h
  unfold removeVictim
  split_ifs with hk
  · refine ⟨alErase_keys_nodup _ _ h1, alErase_keys_nodup _ _ h2, ?_, ?_, ?_⟩
    · intro q hq
      obtain ⟨hqm, hqne⟩ := alErase_mem _ _ _ hq
      rw [alErase_hasKey_ne _ _ _ hqne]
      exact h3 q hqm
    · exact le_trans (alErase_length_le _ _) h4
    · intro q hq
      exact h5 q (alErase_mem _ _ _ hq).1
  · exact ⟨h1, h2, h3, h4, h5⟩

theorem cti_storeInv (cfg : Config) (X : CState) (N c : ℕ)
    (h : storeInv N c X) :
    storeInv N c (calculate_template_importance cfg X) := by
  have hc := cti_importance_inv cfg X h.2.1 h.2.2.1
  unfold storeInv
  rw [calculate_template_importance_templates]
  exact ⟨h.1, hc.1, hc.2, h.2.2.2.1, h.2.2.2.2⟩

theorem cleanTail_inv (cfg : Config) (X : CState) (victims : List ℕ) (N c : ℕ)
    (h : storeInv N c X) :
    storeInv N c
      (victims.foldl removeVictim
        (victims.foldl archiveVictim (calculate_template_importance cfg X))) := by
  have h1 := cti_storeInv cfg X N c h
  have h2 : storeInv N c
      (victims.foldl archiveVictim (calculate_template_importance cfg X)) := by
    unfold storeInv
    rw [foldl_archiveVictim_templates, foldl_archiveVictim_importance]
    exact h1
  exact foldl_inv (storeInv N c) removeVictim victims _ h2
    (fun st a _ hP => removeVictim_inv N c st a hP)

theorem clean_expired_inv (cfg : Config) (s : CState)
    (h : storeInv s.templates.length s.template_counter s) :
    storeInv s.templates.length s.template_counter
      (clean_expired_templates cfg s).2 := by
  unfold clean_expired_templates
  dsimp only
  simp only [merge_similar_snd]
  split_ifs <;>
    first
      | exact h
      | exact cti_storeInv cfg _ _ _ h
      | exact cleanTail_inv cfg _ _ _ _ h

/-- C3: whenever `create_template` returns on a well-formed store holding at
most `max_templates` templates (distinct keys, importance keys pointing at
active templates, counter dominating every issued id), the store again holds
at most `max_templates` templates; and when the insertion pushes the count
above `max_templates`, exactly one template is removed — the first key
attaining the minimal recomputed importance — and it is archived in
`merged_templates`. -/
theorem C3_capacity_invariant (cfg : Config) (data : TData) (s : CState)
    (p : ℕ × CState)
    (hcap : s.templates.length ≤ cfg.max_templates)
    (hT : (alKeys s.templates).Nodup)
    (hI : (alKeys s.template_importance).Nodup)
    (hsub : ∀ q ∈ s.template_importance, alHasKey s.templates q.1 = true)
    (hdom : ∀ q ∈ s.templates, q.1 ≤ s.template_counter)
    (h : create_template cfg data s = some p) :
    p.2.templates.length ≤ cfg.max_templates ∧
    (cfg.max_templates < (createInsertState cfg data s).templates.length →
      ∃ ev v,
        minByVal (calculate_template_importance cfg
            (createInsertState cfg data s)).template_importance = some ev ∧
        alGet (calculate_template_importance cfg
            (createInsertState cfg data s)).template_importance ev = some v ∧
        (∀ q ∈ (calculate_template_importance cfg
            (createInsertState cfg data s)).template_importance, v ≤ q.2) ∧
        alHasKey (createInsertState cfg data s).templates ev = true ∧
        p.2.templates = alErase (createInsertState cfg data s).templates ev ∧
        p.2.templates.length + 1 =
          (createInsertState cfg data s).templates.length ∧
        alHasKey p.2.merged_templates ev = true) ∧
    (¬cfg.max_templates < (createInsertState cfg data s).templates.length →
      p.2 = createInsertState cfg data s) := by
  have hclean := clean_expired_inv cfg s ⟨hT, hI, hsub, le_refl _, hdom⟩
  have hcc := clean_expired_counter cfg s
  unfold create_template at h
  simp only [resurrection_result] at h
  unfold createInsertState
  dsimp only
  set X := (if (cfg.max_templates : ℚ) * (95/100) ≤ (s.templates.length : ℚ) then
      (clean_expired_templates cfg s).2
    else s) with hX
  have hXinv : storeInv s.templates.length s.template_counter X := by
    rw [hX]
    split_ifs
    · exact hclean
    · exact ⟨hT, hI, hsub, le_refl _, hdom⟩
  have hXc : X.template_counter = s.template_counter := by
    rw [hX]
    split_ifs
    · exact hcc
    · rfl
  have hXdomX : ∀ q ∈ X.templates, q.1 ≤ X.template_counter := by
    rw [hXc]
    exact hXinv.2.2.2.2
  have hfresh : alHasKey X.templates (X.template_counter + 1) = false :=
    alHasKey_of_bound _ _ hXdomX
  set Y := update_template_metrics (X.template_counter + 1) true
    { X with template_counter := X.template_counter + 1,
             templates := alSet X.templates (X.template_counter + 1) data }
    with hY
  have hYt : Y.templates = alSet X.templates (X.template_counter + 1) data := by
    rw [hY, update_template_metrics_templates]
  have hYi : Y.template_importance = X.template_importance := by
    rw [hY, update_template_metrics_importance]
  have hYlen : Y.templates.length = X.templates.length + 1 := by
    rw [hYt, alSet_length_fresh _ _ _ hfresh]
  have hYnodT : (alKeys Y.templates).Nodup := by
    rw [hYt]
    exact alSet_keys_nodup _ _ _ hXinv.1
  have hYnodI : (alKeys Y.template_importance).Nodup := by
    rw [hYi]
    exact hXinv.2.1
  have hYsub : ∀ q ∈ Y.template_importance, alHasKey Y.templates q.1 = true := by
    rw [hYi, hYt]
    intro q hq
    exact alSet_hasKey_mono _ _ _ _ (hXinv.2.2.1 q hq)
  have hXlen : X.templates.length ≤ s.templates.length := hXinv.2.2.2.1
  split at h
  · -- over capacity: the eviction path
    rename_i hover
    split at h
    · exact Option.noConfusion h
    · rename_i ev hmin
      have hctiI := cti_importance_inv cfg Y hYnodI hYsub
      obtain ⟨v, hvmem, hvmin⟩ := minByVal_spec _ _ hmin
      have hevT : alHasKey Y.templates ev = true := hctiI.2 (ev, v) hvmem
      rw [calculate_template_importance_templates] at h
      obtain ⟨d, hd⟩ : ∃ d, alGet Y.templates ev = some d := by
        unfold alHasKey at hevT
        exact Option.isSome_iff_exists.mp hevT
      rw [hd] at h
      injection h with h'
      subst h'
      have hA : (alErase Y.templates ev).length + 1 = Y.templates.length :=
        alErase_length_mem _ _ hevT hYnodT
      refine ⟨?_, ?_, ?_⟩
      · show (alErase Y.templates ev).length ≤ cfg.max_templates
        omega
      · intro _
        exact ⟨ev, v, hmin, alGet_of_mem_nodup _ (ev, v) hctiI.1 hvmem, hvmin,
          hevT, rfl, hA, alSet_hasKey_self _ _ _⟩
      · intro hno
        exact absurd hover hno
  · -- within capacity: plain insertion
    rename_i hover
    injection h with h'
    subst h'
    refine ⟨Nat.not_lt.mp hover, ?_, ?_⟩
    · intro hc
      exact absurd hc hover
    · intro _
      rfl

/-- Witness for C3: inserting `[5, 6]` into the full one-slot store evicts
the resident template (importance `7/10` against the newcomer's `4/5`) and
archives it, leaving the store at capacity. -/
theorem C3_capacity_witness :
    capResult.2.templates.length ≤ capCfg.max_templates ∧
    (capCfg.max_templates <
        (createInsertState capCfg (TData.flat [5, 6]) capState).templates.length →
      ∃ ev v,
        minByVal (calculate_template_importance capCfg
            (createInsertState capCfg (TData.flat [5, 6])
              capState)).template_importance = some ev ∧
        alGet (calculate_template_importance capCfg
            (createInsertState capCfg (TData.flat [5, 6])
              capState)).template_importance ev = some v ∧
        (∀ q ∈ (calculate_template_importance capCfg
            (createInsertState capCfg (TData.flat [5, 6])
              capState)).template_importance, v ≤ q.2) ∧
        alHasKey (createInsertState capCfg (TData.flat [5, 6])
            capState).templates ev = true ∧
        capResult.2.templates =
          alErase (createInsertState capCfg (TData.flat [5, 6])
            capState).templates ev ∧
        capResult.2.templates.length + 1 =
          (createInsertState capCfg (TData.flat [5, 6])
            capState).templates.length ∧
        alHasKey capResult.2.merged_templates ev = true) ∧
    (¬capCfg.max_templates <
        (createInsertState capCfg (TData.flat [5, 6]) capState).templates.length →
      capResult.2 = createInsertState capCfg (TData.flat [5, 6]) capState) :=
  C3_capacity_invariant capCfg (TData.flat [5, 6]) capState capResult
    (by decide) (by decide) (by decide) (by decide) (by decide)
    (by with_unfolding_all decide)

/-- `scipy.stats.ks_2samp` on two singleton samples: the observed KS
statistic is attained by every relabelling of the pooled pair, so the exact
two-sided p-value is `1`, whatever the two values. -/
theorem ks_singleton (a b : ℚ) : ks_2samp_pvalue [a] [b] = some 1 := by
  unfold ks_2samp_pvalue
  rw [if_neg (by simp)]
  dsimp only
  rcases lt_trichotomy a b with h | h | h
  · have hle : a ≤ b := le_of_lt h
    have hnle : ¬ b ≤ a := not_le.mpr h
    have hne : a ≠ b := ne_of_lt h
    have hd1 : ([a, b].diff [b]) = [a] := by
      simp [List.diff, List.erase_cons, hne]
    have hd2 : ([a, b].diff [a]) = [b] := by
      simp [List.diff, List.erase_cons]
    norm_num [List.sublistsLen, List.sublistsLenAux, ksStatOn, ecdf, npMax,
      List.countP_cons, hd1, hd2, hle, hnle]
  · subst h
    have hd : ([a, a].diff [a]) = [a] := by
      simp [List.diff, List.erase_cons]
    norm_num [List.sublistsLen, List.sublistsLenAux, ksStatOn, ecdf, npMax,
      List.countP_cons, hd]
  · have hle : b ≤ a := le_of_lt h
    have hnle : ¬ a ≤ b := not_le.mpr h
    have hne : a ≠ b := (ne_of_lt h).symm
    have hd1 : ([a, b].diff [b]) = [a] := by
      simp [List.diff, List.erase_cons, hne]
    have hd2 : ([a, b].diff [a]) = [b] := by
      simp [List.diff, List.erase_cons]
    norm_num [List.sublistsLen, List.sublistsLenAux, ksStatOn, ecdf, npMax,
      List.countP_cons, hd1, hd2, hle, hnle]

/-- z-normalising a singleton gives `[0]` (the std guard substitutes `1`). -/
theorem zNorm_singleton (a : ℚ) : zNorm [a] = [0] := by
  unfold zNorm npVarP npMean qsum
  norm_num

/-- C5 (amended): for singleton windows every constituent except CER takes
the same value in both argument orders (KS p-value `1`, correlation `0`
via the caught `pearsonr` exception, shape similarity `1`, trend similarity
`0`), and the composite score is exactly
`2/5 + 0.15 * (1 - min 1 (cer / 0.15))`.  The two orders therefore differ
exactly by the CER contribution, and CER is not symmetric (its denominators
come from the first argument), so the composite score is not symmetric:
score([10],[11]) = 9/20 but score([11],[10]) = 101/220, a gap of 1/110, far
beyond floating tolerance. -/
theorem C5_singleton_score_value (a b : ℚ) :
    calculate_similarity_score_1d defaultConfig [a] [b] =
      some ⟨2/5 + (3/20) * (1 - min 1 (calculate_cer_1d [a] [b] / (3/20))), 1, 0,
        calculate_cer_1d [a] [b], 1, 0⟩ := by
  have hks : ks_2samp_pvalue [a] [b] = some 1 := ks_singleton a b
  have hcorr : calculate_correlation_1d [a] [b] = some 0 := rfl
  have hz : zNorm [a] = [0] := zNorm_singleton a
  have hz2 : zNorm [b] = [0] := zNorm_singleton b
  show (match ks_2samp_pvalue [a] [b] with
    | none => none
    | some ksp =>
      match calculate_correlation_1d [a] [b] with
      | none => none
      | some corr =>
        some (SimDetails.mk
          (defaultConfig.w_ks * min 1 (ksp / defaultConfig.p_threshold) +
            defaultConfig.w_corr * corr +
            defaultConfig.w_cer *
              (1 - min 1 (calculate_cer_1d [a] [b] / defaultConfig.max_acceptable_cer)) +
            defaultConfig.w_shape * shapeSim (zNorm [a]) (zNorm [b]) +
            defaultConfig.w_trend * trendSim (zNorm [a]) (zNorm [b]))
          ksp corr (calculate_cer_1d [a] [b]) (shapeSim (zNorm [a]) (zNorm [b]))
          (trendSim (zNorm [a]) (zNorm [b])))) = _
  rw [hks, hcorr, hz, hz2]
  have hshape : shapeSim [0] [0] = 1 := by
    unfold shapeSim npMean qsum
    norm_num
  have htrend : trendSim [0] [0] = 0 := rfl
  rw [hshape, htrend]
  have hmin : min (1 : ℚ) (1 / defaultConfig.p_threshold) = 1 := by
    norm_num [defaultConfig]
  dsimp only
  rw [hmin]
  simp only [Option.some.injEq, SimDetails.mk.injEq]
  norm_num [defaultConfig]
  ring


end DataCompression
